import Mathlib

/-!
Shallow embedding of the VM lifecycle reconciler of
`terraform-provider-pve` (`internal/provider/resource_vm.go`).

Each Go function is modelled as a pure Lean function over an explicit
environment record holding the responses the cluster (or the websocket
channel) would give at each call site, returning the function's result
together with the ordered trace of cluster calls it issues.  Machine
integers are modelled as `Int`/`Nat` (no overflow is relevant here),
`map[string]interface{}` attribute maps as association lists over a
`Value` inductive, and fallible Go calls as `Except`/`Bool` fields of
the environment.
-/

namespace PVE

/-- A dynamic attribute value (`interface{}` in the Go source): the code
only ever stores ints, strings and bools in the maps we model. -/
inductive Value where
  | int (n : Int)
  | str (s : String)
  | bool (b : Bool)
  deriving DecidableEq, Repr

/-- An attribute map `map[string]interface{}` as an association list. -/
abbrev VmKV := List (String × Value)

/-- Go map lookup `m[k]`: `nil` when the key is absent. -/
def cfgGet (c : VmKV) (k : String) : Option Value :=
  (c.find? (fun p => p.1 == k)).map (fun p => p.2)

/-- Whether `needle` occurs as a contiguous sublist of the second list. -/
def listInfixOf (needle : List Char) : List Char → Bool
  | [] => needle.isPrefixOf []
  | c :: rest => needle.isPrefixOf (c :: rest) || listInfixOf needle rest

/-- `strings.Contains(s, sub)` on the underlying character data. -/
def strContains (s sub : String) : Bool :=
  listInfixOf sub.data s.data

/-- One cluster API call, as recorded in a trace. -/
inductive Call where
  | getRefsByName (name : String)
  | getVmConfig (vmid : Nat)
  | getNextId
  | cloneVm (src newid : Nat) (name target : String)
  | checkVmRef (vmid : Nat)
  | setVmConfig (vmid : Nat) (params : List (String × Value))
  | moveDisk (src : Nat) (disk : String) (targetVmid : Nat)
  | deleteVm (vmid : Nat)
  | startVm (vmid : Nat)
  | shutdownVm (vmid : Nat)
  | getVmState (vmid : Nat)
  | waitStopped (vmid : Nat)
  | waitIP (vmid : Nat)
  | execCommand (node command : String)
  deriving DecidableEq, Repr

/-! ## Remote command executor (`executeCommandOnNode`) -/

/-- Response of `POST /nodes/{node}/termproxy`. -/
structure TermProxyData where
  port : String
  ticket : String
  upid : String
  user : String
  deriving DecidableEq, Repr

/-- A frame written to the websocket by `executeCommandOnNode`. -/
inductive Frame where
  | ticket (payload : String)
  | resize
  | command (payload : String)
  | newline
  deriving DecidableEq, Repr

/-- Failure modes of `executeCommandOnNode`, one per `return fmt.Errorf`
site in the source. -/
inductive ExecErr where
  | termproxyFailed
  | urlParseFailed
  | wsConfigFailed
  | dialFailed
  | sendTicketFailed
  | readRespFailed
  | ticketRejected
  | sendResizeFailed
  | sendCmdFailed
  | sendNewlineFailed
  | readLineFailed
  | exitStatusNotFound
  | commandFailed (n : Int)
  deriving DecidableEq, Repr

/-- Environment of one `executeCommandOnNode` invocation: the outcome
the channel gives at each fallible step, in source order. `handshake`
is the string read after sending the ticket (`none` models a read
error); `lines` is the stream of lines `bufio.Reader.ReadString`
yields, exhaustion modelling a read error / 30s deadline. -/
structure ExecEnv where
  termproxy : Except String TermProxyData
  urlParseOk : Bool
  wsConfigOk : Bool
  dialOk : Bool
  sendTicketOk : Bool
  handshake : Option String
  sendResizeOk : Bool
  sendCmdOk : Bool
  sendNewlineOk : Bool
  lines : List String
  deriving Repr

/-- RFC 4648 base64 alphabet, as used by `base64.StdEncoding`. -/
def base64Alphabet : List Char :=
  "ABCDEFGHIJKLMNOPQRSTUVWXYZabcdefghijklmnopqrstuvwxyz0123456789+/".data

/-- Character of the base64 alphabet at a 6-bit index. -/
def base64Char (n : Nat) : Char :=
  base64Alphabet.getD n '='

/-- `base64.StdEncoding.EncodeToString` over a byte list. -/
def base64EncodeBytes : List Nat → String
  | [] => ""
  | [b0] =>
      String.mk [base64Char (b0 / 4), base64Char (b0 % 4 * 16), '=', '=']
  | [b0, b1] =>
      String.mk [base64Char (b0 / 4), base64Char (b0 % 4 * 16 + b1 / 16),
        base64Char (b1 % 16 * 4), '=']
  | b0 :: b1 :: b2 :: rest =>
      String.mk [base64Char (b0 / 4), base64Char (b0 % 4 * 16 + b1 / 16),
        base64Char (b1 % 16 * 4 + b2 / 64), base64Char (b2 % 64)] ++
      base64EncodeBytes rest

/-- Base64 of a string's UTF-8 bytes. -/
def base64Encode (s : String) : String :=
  base64EncodeBytes (s.toUTF8.toList.map (fun b => b.toNat))

/-- `%q` of a Go string for the strings that appear here (no characters
needing escapes occur in a base64 payload): double quotes around it. -/
def goQuote (s : String) : String := "\"" ++ s ++ "\""

/-- The bracketed-paste shell line built around the boundary token (the
inner `cmd` of the source, before the keystroke-length prefix). -/
def pasteBody (command boundry : String) : String :=
  "\x1b[200~" ++ "echo;echo CMD-BEGIN-" ++ boundry ++ ";echo " ++
    goQuote (base64Encode command) ++
    " | base64 -d | bash; exit_status=$?; echo CMD-FINISH-" ++ boundry ++
    "; echo exit_status=$exit_status; echo CMD-END-" ++ boundry ++ "\x1b[201~"

/-- The full keystroke-data frame `0:<byteLength>:<payload>`. -/
def commandFrame (command boundry : String) : String :=
  let body := pasteBody command boundry
  "0:" ++ toString body.utf8ByteSize ++ ":" ++ body

/-- States of the line scanner in `executeCommandOnNode`'s read loop. -/
inductive ScanState where
  | sNone
  | sBegin
  | sFinish
  deriving DecidableEq, Repr

/-- The read loop: consume lines, tracking the marker state machine and
accumulating footer lines between the FINISH and END markers.  Running
out of lines models `ReadString` failing (e.g. the 30-second read
deadline), which the source treats as a protocol failure. -/
def scanLines (boundry : String) : List String → ScanState → String → Option String
  | [], _, _ => none
  | line :: rest, st, footer =>
    match st with
    | .sNone =>
        if line = "CMD-BEGIN-" ++ boundry ++ "\r\n" then
          scanLines boundry rest .sBegin footer
        else
          scanLines boundry rest .sNone footer
    | .sBegin =>
        if line = "CMD-FINISH-" ++ boundry ++ "\r\n" then
          scanLines boundry rest .sFinish footer
        else
          scanLines boundry rest .sBegin footer
    | .sFinish =>
        if line = "CMD-END-" ++ boundry ++ "\r\n" then
          some footer
        else
          scanLines boundry rest .sFinish (footer ++ line)

/-- Decimal value of a non-empty run of digit characters. -/
def digitsToNat (cs : List Char) : Option Nat :=
  if cs = [] then none
  else some (cs.foldl (fun acc c => acc * 10 + (c.toNat - 48)) 0)

/-- `fmt.Sscanf(footer, "exit_status=%d", &exitStatus)`: match the
literal prefix, then read an optionally signed decimal integer. -/
def parseExitStatus (s : String) : Option Int :=
  if "exit_status=".data.isPrefixOf s.data then
    let rest := s.data.drop 12
    let neg := rest.take 1 = ['-']
    let digitsPart := if neg then rest.drop 1 else rest
    let digits := digitsPart.takeWhile Char.isDigit
    match digitsToNat digits with
    | none => none
    | some n => some (if neg then -(n : Int) else (n : Int))
  else none

/-- `executeCommandOnNode(session, node, command)` with the random
boundary token made explicit.  Returns the call's result and the frames
written to the websocket, in order. -/
def executeCommandOnNode (env : ExecEnv) (command boundry : String) :
    Except ExecErr Unit × List Frame :=
  match env.termproxy with
  | .error _ => (.error .termproxyFailed, [])
  | .ok tp =>
    if ¬ env.urlParseOk then (.error .urlParseFailed, [])
    else if ¬ env.wsConfigOk then (.error .wsConfigFailed, [])
    else if ¬ env.dialOk then (.error .dialFailed, [])
    else
      let sent := [Frame.ticket (tp.user ++ ":" ++ tp.ticket ++ "\n")]
      if ¬ env.sendTicketOk then (.error .sendTicketFailed, sent)
      else
        match env.handshake with
        | none => (.error .readRespFailed, sent)
        | some resp =>
          if resp ≠ "OK" then (.error .ticketRejected, sent)
          else
            let sent := sent ++ [Frame.resize]
            if ¬ env.sendResizeOk then (.error .sendResizeFailed, sent)
            else
              let sent := sent ++ [Frame.command (commandFrame command boundry)]
              if ¬ env.sendCmdOk then (.error .sendCmdFailed, sent)
              else
                let sent := sent ++ [Frame.newline]
                if ¬ env.sendNewlineOk then (.error .sendNewlineFailed, sent)
                else
                  match scanLines boundry env.lines .sNone "" with
                  | none => (.error .readLineFailed, sent)
                  | some footer =>
                    match parseExitStatus footer with
                    | none => (.error .exitStatusNotFound, sent)
                    | some exitStatus =>
                      if exitStatus ≠ 0 then
                        (.error (.commandFailed exitStatus), sent)
                      else (.ok (), sent)

/-! ## Template swap (`replaceTemplate`) -/

/-- Failure modes of `replaceTemplate`, one per `return fmt.Errorf`
site in the source. -/
inductive RErr where
  | getTplConfigFailed
  | getVmConfigFailed
  | incompatible (n : String)
  | nextIdFailed
  | cloneFailed
  | checkNewFailed
  | detachFailed
  | moveFailed
  | removeUnusedFailed
  | setUpdatesFailed
  | setDeletesFailed
  deriving DecidableEq, Repr

/-- Environment of one `replaceTemplate` invocation: the response the
cluster gives at each call site, in source order. -/
structure ReplaceEnv where
  tplConfig : Except Unit VmKV
  vmConfig : Except Unit VmKV
  nextId : Except Unit Nat
  cloneOk : Bool
  checkNewOk : Bool
  detachOk : Bool
  moveOk : Bool
  removeUnusedOk : Bool
  setUpdatesOk : Bool
  setDeletesOk : Bool
  deleteAuxOk : Bool
  deriving Repr

/-- The allow-list loop of `replaceTemplate` computing `updates` and
`deletes` over `ostype`, `vga`, `cpu` (in that order): a key whose
values differ is deleted when the template has none, updated to the
template's value otherwise. -/
def tplPropagation (tplConfig vmConfig : VmKV) :
    List (String × Value) × List String :=
  (["ostype", "vga", "cpu"].foldl
    (fun acc n =>
      if cfgGet tplConfig n ≠ cfgGet vmConfig n then
        match cfgGet tplConfig n with
        | none => (acc.1, acc.2 ++ [n])
        | some v => (acc.1 ++ [(n, v)], acc.2)
      else acc)
    ([], []))

/-- Body of `replaceTemplate` after the auxiliary clone succeeded
(everything the `defer` wraps): steps 2–5 of the swap. -/
def replaceAfterClone (env : ReplaceEnv) (tplConfig vmConfig : VmKV)
    (vmid newid : Nat) : Except RErr Unit × List Call :=
  let tr := [Call.checkVmRef newid]
  if ¬ env.checkNewOk then (.error .checkNewFailed, tr)
  else
    let tr := tr ++ [Call.setVmConfig vmid [("delete", .str "scsi0")]]
    if ¬ env.detachOk then (.error .detachFailed, tr)
    else
      let tr := tr ++ [Call.moveDisk newid "scsi0" vmid]
      if ¬ env.moveOk then (.error .moveFailed, tr)
      else
        let tr := tr ++ [Call.setVmConfig vmid [("delete", .str "unused0")]]
        if ¬ env.removeUnusedOk then (.error .removeUnusedFailed, tr)
        else
          let (updates, deletes) := tplPropagation tplConfig vmConfig
          let (r1, tr) :=
            if updates.length > 0 then
              (if env.setUpdatesOk then Except.ok () else .error RErr.setUpdatesFailed,
                tr ++ [Call.setVmConfig vmid updates])
            else (.ok (), tr)
          match r1 with
          | .error e => (.error e, tr)
          | .ok () =>
            if deletes.length > 0 then
              let tr := tr ++
                [Call.setVmConfig vmid [("delete", .str (String.intercalate "," deletes))]]
              if ¬ env.setDeletesOk then (.error .setDeletesFailed, tr)
              else (.ok (), tr)
            else (.ok (), tr)

/-- `replaceTemplate(ctx, client, vmName, vmref, tplref)`.  The `defer`
that deletes the auxiliary VM is modelled by appending the `deleteVm`
call to the trace of every exit path that runs after the clone; its
failure is only logged (the function's unnamed `error` return is not
affected by the deferred assignment), so the result does not consult
`deleteAuxOk`. -/
def replaceTemplate (env : ReplaceEnv) (vmName : String)
    (vmid tplid : Nat) (tplNode : String) : Except RErr Unit × List Call :=
  let tr := [Call.getVmConfig tplid]
  match env.tplConfig with
  | .error _ => (.error .getTplConfigFailed, tr)
  | .ok tplConfig =>
    let tr := tr ++ [Call.getVmConfig vmid]
    match env.vmConfig with
    | .error _ => (.error .getVmConfigFailed, tr)
    | .ok vmConfig =>
      if cfgGet tplConfig "bootdisk" ≠ cfgGet vmConfig "bootdisk" then
        (.error (.incompatible "bootdisk"), tr)
      else if cfgGet tplConfig "scsihw" ≠ cfgGet vmConfig "scsihw" then
        (.error (.incompatible "scsihw"), tr)
      else
        let tr := tr ++ [Call.getNextId]
        match env.nextId with
        | .error _ => (.error .nextIdFailed, tr)
        | .ok newid =>
          let tr := tr ++ [Call.cloneVm tplid newid (vmName ++ "-upgrade") tplNode]
          if ¬ env.cloneOk then (.error .cloneFailed, tr)
          else
            let (r, trBody) := replaceAfterClone env tplConfig vmConfig vmid newid
            (r, tr ++ trBody ++ [Call.deleteVm newid])

/-! ## VM update (`resourceVMUpdate`) -/

/-- One entry of the `disk` list attribute: storage pool and size (GB). -/
structure Disk where
  storage : String
  size : Int
  deriving DecidableEq, Repr

/-- The declared resource attributes of a `pve_vm` resource, as read
through `d.Get`/`d.GetChange`. -/
structure VMCfg where
  name : String
  templateName : String
  targetNode : String
  targetStorage : String
  onboot : Bool
  status : String
  cores : Int
  memory : Int
  userData : String
  disks : List Disk
  deriving DecidableEq, Repr

/-- A resolved VM reference as returned by `GetVmRefsByName`. -/
structure TplRef where
  vmid : Nat
  node : String
  vmType : String
  deriving DecidableEq, Repr

/-- `updates[device] = fmt.Sprintf("%s:%d,format=qcow2", storage, size)`
with `device = fmt.Sprintf("scsi%d", i+1)` for the disk at index `i`. -/
def diskAttachEntry (i : Nat) (d : Disk) : String × Value :=
  ("scsi" ++ toString (i + 1),
    .str (d.storage ++ ":" ++ toString d.size ++ ",format=qcow2"))

/-- The attach loop of the update (and create) path: one config entry
for each desired disk index from `oldLen` up. -/
def diskAttachUpdates (oldLen : Nat) (newDisks : List Disk) :
    List (String × Value) :=
  (newDisks.enum.drop oldLen).map (fun p => diskAttachEntry p.1 p.2)

/-- The detach loop: device names `scsi<i+1>` for
`i = newLen, …, oldLen-1`. -/
def detachDevices (newLen oldLen : Nat) : List String :=
  ((List.range oldLen).drop newLen).map (fun i => "scsi" ++ toString (i + 1))

/-- The unused-placeholder loop: device names `unused<i>` for
`i = 0, …, count-1`. -/
def unusedDevices (count : Nat) : List String :=
  (List.range count).map (fun i => "unused" ++ toString i)

/-- `vmConfig["agent"]` exists, is a string, and contains `enabled=1`. -/
def agentEnabled (cfg : VmKV) : Bool :=
  match cfgGet cfg "agent" with
  | some (.str s) => strContains s "enabled=1"
  | _ => false

/-- Failure modes of `resourceVMUpdate`, one per `diag` site. -/
inductive UErr where
  | checkFailed
  | deleteDiskFailed
  | deleteUnusedFailed
  | setUpdatesFailed
  | tplLookupFailed
  | templateNotFound
  | ambiguousTemplate
  | wrongTemplateType
  | shutdownFailed
  | waitStoppedFailed
  | replaceFailed (e : RErr)
  | getStateFailed
  | startFailed
  | getConfigFailed
  | waitIPFailed
  | invalidStatus (s : String)
  | unknownStatus (s : String)
  deriving DecidableEq, Repr

/-- Environment of one `resourceVMUpdate` invocation: the response the
cluster gives at each call site, in source order. -/
structure UpdateEnv where
  checkOk : Bool
  deleteDisksOk : Bool
  deleteUnusedOk : Bool
  check2Ok : Bool
  setUpdatesOk : Bool
  tplRefs : Except Unit (List TplRef)
  shutdownTplOk : Bool
  waitTplOk : Bool
  repl : ReplaceEnv
  shutdownOk : Bool
  waitOk : Bool
  vmState : Except Unit String
  shutdown2Ok : Bool
  wait2Ok : Bool
  startOk : Bool
  vmConfig : Except Unit VmKV
  waitIPOk : Bool
  deriving Repr

/-- Final status-reconciliation switch of `resourceVMUpdate` (lines
425–472): compare observed and desired power status, shutting down or
starting (plus the agent IP wait) as needed. -/
def statusReconcile (env : UpdateEnv) (vmid : Nat) (desired : String)
    (tr : List Call) : Except UErr Unit × List Call :=
  let tr := tr ++ [Call.getVmState vmid]
  match env.vmState with
  | .error _ => (.error .getStateFailed, tr)
  | .ok currentStatus =>
    if currentStatus = "running" then
      if desired = "running" then (.ok (), tr)
      else if desired = "stopped" then
        let tr := tr ++ [Call.shutdownVm vmid]
        if ¬ env.shutdown2Ok then (.error .shutdownFailed, tr)
        else
          let tr := tr ++ [Call.waitStopped vmid]
          if ¬ env.wait2Ok then (.error .waitStoppedFailed, tr)
          else (.ok (), tr)
      else (.error (.invalidStatus desired), tr)
    else if currentStatus = "stopped" then
      if desired = "running" then
        let tr := tr ++ [Call.startVm vmid]
        if ¬ env.startOk then (.error .startFailed, tr)
        else
          let tr := tr ++ [Call.getVmConfig vmid]
          match env.vmConfig with
          | .error _ => (.error .getConfigFailed, tr)
          | .ok vmConfig =>
            if agentEnabled vmConfig then
              let tr := tr ++ [Call.waitIP vmid]
              if ¬ env.waitIPOk then (.error .waitIPFailed, tr)
              else (.ok (), tr)
            else (.ok (), tr)
      else if desired = "stopped" then (.ok (), tr)
      else (.error (.invalidStatus desired), tr)
    else (.error (.unknownStatus currentStatus), tr)

/-- The batched `updates` map of `resourceVMUpdate` (lines 318–348), in
insertion order: changed name/cores/memory/onboot, plus the disk attach
entries when the desired list is longer. -/
def updateEntries (old new : VMCfg) : List (String × Value) :=
  (if old.name ≠ new.name then [("name", Value.str new.name)] else []) ++
  (if old.cores ≠ new.cores then [("cores", Value.int new.cores)] else []) ++
  (if old.memory ≠ new.memory then [("memory", Value.int new.memory)] else []) ++
  (if old.onboot ≠ new.onboot then [("onboot", Value.bool new.onboot)] else []) ++
  (if old.disks ≠ new.disks ∧ old.disks.length < new.disks.length then
    diskAttachUpdates old.disks.length new.disks
  else [])

/-- `resourceVMUpdate(ctx, d, meta)` with the prior state `old` and the
desired state `new` (`d.HasChange x` is `old.x ≠ new.x`, `d.Get x` is
`new.x`). -/
def resourceVMUpdate (old new : VMCfg) (vmid : Nat) (env : UpdateEnv) :
    Except UErr Unit × List Call :=
  let tr := [Call.checkVmRef vmid]
  if ¬ env.checkOk then (.error .checkFailed, tr)
  else
    let shutdownNeeded : Bool :=
      decide (old.cores ≠ new.cores) || decide (old.memory ≠ new.memory)
    let updates : List (String × Value) := updateEntries old new
    let (rDisk, tr) :=
      if old.disks ≠ new.disks ∧ ¬ old.disks.length < new.disks.length then
        let deletes := detachDevices new.disks.length old.disks.length
        let tr := tr ++
          [Call.setVmConfig vmid [("delete", .str (String.intercalate "," deletes))]]
        if ¬ env.deleteDisksOk then (Except.error UErr.deleteDiskFailed, tr)
        else
          let unused := unusedDevices deletes.length
          let tr := tr ++
            [Call.setVmConfig vmid [("delete", .str (String.intercalate "," unused))]]
          if ¬ env.deleteUnusedOk then (.error .deleteUnusedFailed, tr)
          else (.ok (), tr)
      else (.ok (), tr)
    match rDisk with
    | .error e => (.error e, tr)
    | .ok () =>
      let (rUpd, tr) :=
        if updates.length > 0 then
          let tr := tr ++ [Call.checkVmRef vmid]
          if ¬ env.check2Ok then (Except.error UErr.checkFailed, tr)
          else
            let tr := tr ++ [Call.setVmConfig vmid updates]
            if ¬ env.setUpdatesOk then (.error .setUpdatesFailed, tr)
            else (.ok (), tr)
        else (.ok (), tr)
      match rUpd with
      | .error e => (.error e, tr)
      | .ok () =>
        let (rTpl, tr, shutdownNeeded) :=
          if old.templateName ≠ new.templateName then
            let tr := tr ++ [Call.getRefsByName new.templateName]
            match env.tplRefs with
            | .error _ => (Except.error UErr.tplLookupFailed, tr, shutdownNeeded)
            | .ok [] => (.error .templateNotFound, tr, shutdownNeeded)
            | .ok (_ :: _ :: _) => (.error .ambiguousTemplate, tr, shutdownNeeded)
            | .ok [tpl] =>
              if tpl.vmType ≠ "qemu" then (.error .wrongTemplateType, tr, shutdownNeeded)
              else
                let tr := tr ++ [Call.shutdownVm vmid]
                if ¬ env.shutdownTplOk then (.error .shutdownFailed, tr, shutdownNeeded)
                else
                  let tr := tr ++ [Call.waitStopped vmid]
                  if ¬ env.waitTplOk then (.error .waitStoppedFailed, tr, shutdownNeeded)
                  else
                    let (rRep, trRep) :=
                      replaceTemplate env.repl new.name vmid tpl.vmid tpl.node
                    let tr := tr ++ trRep
                    match rRep with
                    | .error e => (.error (.replaceFailed e), tr, shutdownNeeded)
                    | .ok () => (.ok (), tr, false)
          else (.ok (), tr, shutdownNeeded)
        match rTpl with
        | .error e => (.error e, tr)
        | .ok () =>
          let (rShut, tr) :=
            if shutdownNeeded then
              let tr := tr ++ [Call.shutdownVm vmid]
              if ¬ env.shutdownOk then (Except.error UErr.shutdownFailed, tr)
              else
                let tr := tr ++ [Call.waitStopped vmid]
                if ¬ env.waitOk then (.error .waitStoppedFailed, tr)
                else (.ok (), tr)
            else (.ok (), tr)
          match rShut with
          | .error e => (.error e, tr)
          | .ok () => statusReconcile env vmid new.status tr

/-! ## Guest-agent IP waiter (`waitVMBootUpGetIP`) -/

/-- An address of a guest interface; `v4` is one whose `To4()` has
IPv4 length, carrying its `String()` rendering. -/
inductive IpAddr where
  | v4 (s : String)
  | v6 (s : String)
  deriving DecidableEq, Repr

/-- One guest network interface returned by the agent query. -/
structure Iface where
  name : String
  addrs : List IpAddr
  deriving DecidableEq, Repr

/-- One response of `GetVmAgentNetworkInterfaces`: an error message or
the interface list. -/
abbrev AgentResp := Except String (List Iface)

/-- Failure modes of `waitVMBootUpGetIP`.  `starved` is a model
artifact: the environment's response stream ran out while the loop
still wanted to poll (the real call would block on the next query);
theorems keep it unreachable via stream-length hypotheses. -/
inductive WErr where
  | timeoutErr
  | queryFailed (msg : String)
  | starved
  deriving DecidableEq, Repr

/-- The interface scan of `waitVMBootUpGetIP` (lines 569–577): for
every interface named `eth0`, `d.Set("ipv4_address", ip.String())` for
each of its IPv4 addresses — later `Set`s overwrite earlier ones. -/
def scanIfaces (ifaces : List Iface) (ipv4 : Option String) : Option String :=
  ifaces.foldl
    (fun acc iface =>
      if iface.name = "eth0" then
        iface.addrs.foldl
          (fun acc ip =>
            match ip with
            | .v4 s => some s
            | .v6 _ => acc)
          acc
      else acc)
    ipv4

/-- `waitVMBootUpGetIP(ctx, client, vmref, d, timeout)`: time in
seconds, `elapsed` against the context deadline `timeout`, one stream
entry per agent query, `ipv4` the currently stored `ipv4_address`.
A `"guest agent is not running"` error sleeps `poll` and retries; any
other error is fatal; a successful query scans and stops. -/
def waitVMBootUpGetIP (timeout poll : Nat) (responses : List AgentResp)
    (ipv4 : Option String) (elapsed : Nat) : Except WErr (Option String) :=
  if timeout ≤ elapsed then .error .timeoutErr
  else
    match responses with
    | [] => .error .starved
    | resp :: rest =>
      match resp with
      | .error msg =>
        if strContains msg "guest agent is not running" then
          waitVMBootUpGetIP timeout poll rest ipv4 (elapsed + poll)
        else .error (.queryFailed msg)
      | .ok ifaces => .ok (scanIfaces ifaces ipv4)

/-! ## VM read (`resourceVMRead`) -/

/-- Outcome of `CheckVmRef` during a read: ok, the recognizable
`vm '<id>' not found` error, or any other error. -/
inductive CheckRes where
  | ok
  | notFound
  | otherErr
  deriving DecidableEq, Repr

/-- Failure modes of `resourceVMRead`. -/
inductive RdErr where
  | checkFailed
  | getConfigFailed
  | getStateFailed
  | ipWait (e : WErr)
  deriving DecidableEq, Repr

/-- Environment of one `resourceVMRead` invocation. -/
structure ReadEnv where
  check : CheckRes
  vmConfig : Except Unit VmKV
  vmStatus : Except Unit String
  agentResponses : List AgentResp
  deriving Repr

/-- The resource state a successful read leaves behind (the fields the
claims consult; `removed` is `d.SetId("")`). -/
structure ReadOut where
  removed : Bool
  cores : Option Value
  memory : Option Value
  name : Option Value
  onboot : Bool
  status : Option String
  ipv4 : Option String
  deriving DecidableEq, Repr

/-- `vmConfigToState(vmConfig, d)`: copies cores/memory/name/onboot
from the fetched config into the state (the Go type assertions are not
modelled as panics; the claims never exercise malformed configs). -/
def vmConfigToState (cfg : VmKV) (st : ReadOut) : ReadOut :=
  { st with
    cores := cfgGet cfg "cores"
    memory := cfgGet cfg "memory"
    name := cfgGet cfg "name"
    onboot := cfgGet cfg "onboot" = some (.int 1) }

/-- `resourceVMRead(ctx, d, meta)` for a VM with stored state
`prevIpv4`: a 1-second (`1*time.Second`) agent IP refresh runs when
the VM is running with the agent enabled, and its diagnostics are
returned by the read itself. -/
def resourceVMRead (vmid : Nat) (prevIpv4 : Option String) (env : ReadEnv) :
    Except RdErr ReadOut × List Call :=
  let st : ReadOut :=
    { removed := false, cores := none, memory := none, name := none,
      onboot := false, status := none, ipv4 := prevIpv4 }
  let tr := [Call.checkVmRef vmid]
  match env.check with
  | .notFound => (.ok { st with removed := true }, tr)
  | .otherErr => (.error .checkFailed, tr)
  | .ok =>
    let tr := tr ++ [Call.getVmConfig vmid]
    match env.vmConfig with
    | .error _ => (.error .getConfigFailed, tr)
    | .ok vmConfig =>
      let st := vmConfigToState vmConfig st
      let tr := tr ++ [Call.getVmState vmid]
      match env.vmStatus with
      | .error _ => (.error .getStateFailed, tr)
      | .ok status =>
        let st := { st with status := some status }
        if status = "running" ∧ agentEnabled vmConfig then
          let tr := tr ++ [Call.waitIP vmid]
          match waitVMBootUpGetIP 1 2 env.agentResponses st.ipv4 0 with
          | .error e => (.error (.ipWait e), tr)
          | .ok ipv4 => (.ok { st with ipv4 := ipv4 }, tr)
        else (.ok st, tr)

/-! ## VM create (`resourceVMCreate`) -/

/-- Failure modes of `resourceVMCreate`, one per `diag` site. -/
inductive CErr where
  | tplLookupFailed
  | templateNotFound
  | ambiguousTemplate
  | wrongTemplateType
  | nextIdFailed
  | cloneFailed
  | checkFailed
  | userDataFailed
  | setFailed
  | getConfigFailed
  | startFailed
  | waitIPFailed
  deriving DecidableEq, Repr

/-- Environment of one `resourceVMCreate` invocation, in source order.
`newVmNode` is the node `CheckVmRef` resolves for the cloned VM. -/
structure CreateEnv where
  tplRefs : Except Unit (List TplRef)
  nextId : Except Unit Nat
  cloneOk : Bool
  checkUserDataOk : Bool
  newVmNode : String
  execOk : Bool
  checkOk : Bool
  setOk : Bool
  vmConfig : Except Unit VmKV
  startOk : Bool
  waitIPOk : Bool
  deriving Repr

/-- The snippet file name `vm-<vmid>-cloudinit-user-data`. -/
def snippetName (vmid : Nat) : String :=
  "vm-" ++ toString vmid ++ "-cloudinit-user-data"

/-- The shell command uploading the base64-encoded user data into the
node's snippets directory. -/
def uploadSnippetCommand (vmid : Nat) (userData : String) : String :=
  "echo " ++ goQuote (base64Encode userData) ++
    " | base64 -d > /var/lib/vz/snippets/" ++ snippetName vmid

/-- The base config entries of a create (`cores`/`memory`/`onboot`/
disks), as inserted by `d.GetOk` guards (a zero value reads as unset). -/
def createBaseEntries (cfg : VMCfg) : List (String × Value) :=
  (if cfg.cores ≠ 0 then [("cores", Value.int cfg.cores)] else []) ++
  (if cfg.memory ≠ 0 then [("memory", Value.int cfg.memory)] else []) ++
  (if cfg.onboot then [("onboot", Value.bool true)] else []) ++
  (if cfg.disks ≠ [] then diskAttachUpdates 0 cfg.disks else [])

/-- The `user_data` block of the create: check the VM, upload the
snippet over the terminal channel, and extend the updates with
`cicustom`. -/
def createUserData (cfg : VMCfg) (env : CreateEnv) (newid : Nat)
    (updates : List (String × Value)) :
    Except CErr Unit × List Call × List (String × Value) :=
  if cfg.userData ≠ "" then
    let tr := [Call.checkVmRef newid]
    if ¬ env.checkUserDataOk then (.error .checkFailed, tr, updates)
    else
      let tr := tr ++
        [Call.execCommand env.newVmNode (uploadSnippetCommand newid cfg.userData)]
      if ¬ env.execOk then (.error .userDataFailed, tr, updates)
      else
        (.ok (), tr,
          updates ++ [("cicustom", .str ("user=local:snippets/" ++ snippetName newid))])
  else (.ok (), [], updates)

/-- The `len(updates) > 0` block of the create: re-check the VM and
write the batched config. -/
def createApply (env : CreateEnv) (newid : Nat) (updates : List (String × Value)) :
    Except CErr Unit × List Call :=
  if updates.length > 0 then
    let tr := [Call.checkVmRef newid]
    if ¬ env.checkOk then (.error .checkFailed, tr)
    else
      let tr := tr ++ [Call.setVmConfig newid updates]
      if ¬ env.setOk then (.error .setFailed, tr)
      else (.ok (), tr)
  else (.ok (), [])

/-- The tail of the create: config re-read, then start plus the
agent IP wait when requested. -/
def createStart (cfg : VMCfg) (env : CreateEnv) (newid : Nat) :
    Except CErr Unit × List Call :=
  let tr := [Call.getVmConfig newid]
  match env.vmConfig with
  | .error _ => (.error .getConfigFailed, tr)
  | .ok vmConfig =>
    if cfg.status = "running" then
      let tr := tr ++ [Call.startVm newid]
      if ¬ env.startOk then (.error .startFailed, tr)
      else
        if agentEnabled vmConfig then
          let tr := tr ++ [Call.waitIP newid]
          if ¬ env.waitIPOk then (.error .waitIPFailed, tr)
          else (.ok (), tr)
        else (.ok (), tr)
    else (.ok (), tr)

/-- Body of `resourceVMCreate` after the clone succeeded: the batched
config update (cores/memory/onboot/disks/cicustom incl. the snippet
upload), the config re-read, and the start plus IP wait. -/
def createAfterClone (cfg : VMCfg) (env : CreateEnv) (newid : Nat) :
    Except CErr Unit × List Call :=
  let (rUD, tr, updates) := createUserData cfg env newid (createBaseEntries cfg)
  match rUD with
  | .error e => (.error e, tr)
  | .ok () =>
    let (rSet, trSet) := createApply env newid updates
    let tr := tr ++ trSet
    match rSet with
    | .error e => (.error e, tr)
    | .ok () =>
      let (rStart, trStart) := createStart cfg env newid
      (rStart, tr ++ trStart)

/-- `resourceVMCreate(ctx, d, meta)`.  Resolves the template, clones it
(with the clone request's `target` parameter set to the template's
node), then runs the post-clone body. -/
def resourceVMCreate (cfg : VMCfg) (env : CreateEnv) :
    Except CErr Unit × List Call :=
  let tr := [Call.getRefsByName cfg.templateName]
  match env.tplRefs with
  | .error _ => (.error .tplLookupFailed, tr)
  | .ok [] => (.error .templateNotFound, tr)
  | .ok (_ :: _ :: _) => (.error .ambiguousTemplate, tr)
  | .ok [tpl] =>
    if tpl.vmType ≠ "qemu" then (.error .wrongTemplateType, tr)
    else
      let tr := tr ++ [Call.getNextId]
      match env.nextId with
      | .error _ => (.error .nextIdFailed, tr)
      | .ok newid =>
        let tr := tr ++ [Call.cloneVm tpl.vmid newid cfg.name tpl.node]
        if ¬ env.cloneOk then (.error .cloneFailed, tr)
        else
          let (r, trBody) := createAfterClone cfg env newid
          (r, tr ++ trBody)

/-! ## Derived definitions used by the verification -/

/-- All channel steps of the executor up to and including the handshake
and the frame sends succeed. -/
def channelOk (env : ExecEnv) : Bool :=
  (match env.termproxy with | .ok _ => true | .error _ => false) &&
  env.urlParseOk && env.wsConfigOk && env.dialOk && env.sendTicketOk &&
  (env.handshake == some "OK") && env.sendResizeOk && env.sendCmdOk && env.sendNewlineOk

/-- `statusReconcile` run from an empty trace (its relative trace). -/
def statusRes (env : UpdateEnv) (vmid : Nat) (desired : String) :
    Except UErr Unit × List Call :=
  statusReconcile env vmid desired []

/-- A config write that carries a `delete` parameter (a detach or
placeholder-removal batch). -/
def isDeleteWrite : Call → Bool
  | .setVmConfig _ ps => ps.any (fun p => p.1 == "delete")
  | _ => false

/-- The IPv4 renderings among a list of addresses, in order. -/
def collectV4 (addrs : List IpAddr) : List String :=
  addrs.filterMap (fun a => match a with | .v4 s => some s | .v6 _ => none)

/-- Modelled from the spec: the address the waiter records — the last
IPv4 of the eth0 interfaces, or the previous value when none exists. -/
def lastEth0V4 (ifaces : List Iface) (prev : Option String) : Option String :=
  ((collectV4 ((ifaces.filter (fun i => i.name == "eth0")).flatMap
      (fun i => i.addrs))).getLast?).or prev

/-- Modelled from the spec: the first IPv4 address of the interface
named eth0 (what the claim says is recorded). -/
def firstEth0V4 (ifaces : List Iface) : Option String :=
  (collectV4 ((ifaces.filter (fun i => i.name == "eth0")).flatMap
      (fun i => i.addrs))).head?

/-! ## Concrete fixtures for witnesses and counterexamples -/

/-- A template config sharing boot disk and controller with `vmCfgW`. -/
def tplCfgW : VmKV :=
  [("bootdisk", .str "scsi0"), ("scsihw", .str "virtio-scsi-pci"), ("ostype", .str "l26")]

/-- A target-VM config compatible with `tplCfgW`. -/
def vmCfgW : VmKV :=
  [("bootdisk", .str "scsi0"), ("scsihw", .str "virtio-scsi-pci"), ("vga", .str "std")]

/-- A target-VM config with a different boot disk than `tplCfgW`. -/
def vmCfgIncompatW : VmKV :=
  [("bootdisk", .str "ide0"), ("scsihw", .str "virtio-scsi-pci")]

/-- A swap environment in which every cluster call succeeds. -/
def renvW : ReplaceEnv :=
  ⟨.ok tplCfgW, .ok vmCfgW, .ok 101, true, true, true, true, true, true, true, true⟩

/-- A resource configuration fixture. -/
def cfgW : VMCfg :=
  ⟨"vm1", "tpl", "pve", "local", false, "running", 1, 512, "", []⟩

/-- An update environment in which every cluster call succeeds and the
VM reads back stopped with the agent enabled. -/
def uenvW : UpdateEnv :=
  ⟨true, true, true, true, true, .ok [], true, true, renvW, true, true,
    .ok "stopped", true, true, true, .ok [("agent", .str "enabled=1")], true⟩

/-- A create environment resolving the template to vmid 7 on `nodeT`. -/
def cenvW : CreateEnv :=
  ⟨.ok [⟨7, "nodeT", "qemu"⟩], .ok 101, true, true, "nodeT", true, true, true,
    .ok [("agent", .str "enabled=1")], true, true⟩

/-- An executor environment whose command stream reports exit status 0. -/
def xenvW : ExecEnv :=
  ⟨.ok ⟨"5900", "TICK", "UPID", "root@pam"⟩, true, true, true, true, some "OK",
    true, true, true,
    ["CMD-BEGIN-b\r\n", "CMD-FINISH-b\r\n", "exit_status=0\r\n", "CMD-END-b\r\n"]⟩

/-- A read environment of a running agent-enabled VM whose agent query
keeps answering that the agent is not running. -/
def readEnvW : ReadEnv :=
  ⟨.ok, .ok [("agent", .str "enabled=1"), ("cores", .int 1)], .ok "running",
    [.error "QEMU guest agent is not running"]⟩

/-! ## Helper lemmas -/

theorem replaceAfterClone_no_deleteVm (env : ReplaceEnv) (tplCfg vmCfg : VmKV)
    (vmid newid k : Nat) :
    Call.deleteVm k ∉ (replaceAfterClone env tplCfg vmCfg vmid newid).2 := by
  unfold replaceAfterClone
  repeat' split
  all_goals simp_all

theorem replaceAfterClone_no_clone (env : ReplaceEnv) (tplCfg vmCfg : VmKV)
    (vmid newid : Nat) (s n : Nat) (nm tgt : String) :
    Call.cloneVm s n nm tgt ∉ (replaceAfterClone env tplCfg vmCfg vmid newid).2 := by
  unfold replaceAfterClone
  repeat' split
  all_goals simp_all

theorem replaceAfterClone_pair_no_clone {env : ReplaceEnv} {tplCfg vmCfg : VmKV}
    {vmid newid : Nat} {r : Except RErr Unit} {tr : List Call} {s n : Nat} {nm tgt : String}
    (hpair : replaceAfterClone env tplCfg vmCfg vmid newid = (r, tr)) :
    Call.cloneVm s n nm tgt ∉ tr := by
  intro hm
  have hn := replaceAfterClone_no_clone env tplCfg vmCfg vmid newid s n nm tgt
  rw [hpair] at hn
  exact hn hm

theorem statusReconcile_shift (env : UpdateEnv) (vmid : Nat) (desired : String)
    (tr : List Call) :
    statusReconcile env vmid desired tr =
      ((statusRes env vmid desired).1, tr ++ (statusRes env vmid desired).2) := by
  unfold statusRes statusReconcile
  repeat' split
  all_goals simp_all

theorem statusRes_no_setVmConfig (env : UpdateEnv) (vmid : Nat) (desired : String)
    (v : Nat) (ps : List (String × Value)) :
    Call.setVmConfig v ps ∉ (statusRes env vmid desired).2 := by
  unfold statusRes statusReconcile
  repeat' split
  all_goals simp_all

theorem diskAttachUpdates_length (oldLen : Nat) (ds : List Disk) :
    (diskAttachUpdates oldLen ds).length = ds.length - oldLen := by
  simp [diskAttachUpdates]

theorem range_drop_aux (m n : Nat) : (List.range n).drop m = List.range' m (n - m) := by
  induction n with
  | zero => simp
  | succ k ih =>
    by_cases h : m ≤ k
    · rw [List.range_succ, List.drop_append_of_le_length (by simp [h]), ih,
        Nat.succ_sub h, List.range'_concat]
      simp [Nat.add_sub_cancel' h]
    · have hm : k + 1 ≤ m := by omega
      rw [List.drop_eq_nil_of_le (by simp [hm]), Nat.sub_eq_zero_of_le hm]
      simp

theorem detachDevices_eq (newLen oldLen : Nat) :
    detachDevices newLen oldLen =
      (List.range' (newLen + 1) (oldLen - newLen)).map (fun s => "scsi" ++ toString s) := by
  unfold detachDevices
  rw [range_drop_aux]
  generalize oldLen - newLen = k
  induction k generalizing newLen with
  | zero => rfl
  | succ k ih =>
    rw [List.range'_succ, List.range'_succ, List.map_cons, List.map_cons, ih]

theorem scsi_ne_delete (s : String) : "scsi" ++ s ≠ "delete" := by
  intro h
  have h2 := congrArg (fun t => t.data.head?) h
  simp [String.data_append] at h2

theorem updateEntries_no_delete (old new : VMCfg) :
    ∀ pr ∈ updateEntries old new, pr.1 ≠ "delete" := by
  intro pr hpr
  unfold updateEntries at hpr
  simp only [List.mem_append] at hpr
  rcases hpr with (((h | h) | h) | h) | h
  · split at h <;> simp_all
  · split at h <;> simp_all
  · split at h <;> simp_all
  · split at h <;> simp_all
  · split at h
    · unfold diskAttachUpdates at h
      simp only [List.mem_map] at h
      obtain ⟨p, _, hp⟩ := h
      rw [← hp]
      exact scsi_ne_delete _
    · simp at h

theorem update_attach_trace (old new : VMCfg) (vmid : Nat) (env : UpdateEnv)
    (hlen : old.disks.length < new.disks.length)
    (hne : old.disks ≠ new.disks)
    (htpl : old.templateName = new.templateName)
    (hchk : env.checkOk = true) (hchk2 : env.check2Ok = true) :
    ∃ tail, (resourceVMUpdate old new vmid env).2 =
      [Call.checkVmRef vmid, Call.checkVmRef vmid,
        Call.setVmConfig vmid (updateEntries old new)] ++ tail
    ∧ ∀ v ps, Call.setVmConfig v ps ∉ tail := by
  have hnotlt : ¬ (old.disks ≠ new.disks ∧ ¬ old.disks.length < new.disks.length) := by
    simp [hlen]
  have hpos : 0 < (updateEntries old new).length := by
    have h1 : 0 < (diskAttachUpdates old.disks.length new.disks).length := by
      rw [diskAttachUpdates_length]; omega
    simp [updateEntries, hne, hlen]
    omega
  unfold resourceVMUpdate
  simp only [hchk, hchk2, Bool.not_true, if_neg, hnotlt, if_pos hpos, ite_false, ite_true,
    Bool.false_eq_true, not_false_eq_true, htpl, ne_eq, not_true_eq_false,
    statusReconcile_shift]
  by_cases hup : env.setUpdatesOk
  · simp only [hup, Bool.not_true, Bool.false_eq_true, if_false, ite_false, ite_true,
      not_false_eq_true, if_neg, not_true_eq_false]
    by_cases hsn : (decide ¬old.cores = new.cores || decide ¬old.memory = new.memory) = true
    · simp only [hsn, if_true, ite_true]
      by_cases hsd : env.shutdownOk
      · simp only [hsd, Bool.not_true, Bool.false_eq_true, if_false, ite_false]
        by_cases hw : env.waitOk
        · simp only [hw, Bool.not_true, Bool.false_eq_true, if_false, ite_false]
          exact ⟨[Call.shutdownVm vmid, Call.waitStopped vmid] ++
              (statusRes env vmid new.status).2,
            by simp, by intro v ps; simp [statusRes_no_setVmConfig]⟩
        · simp only [hw, Bool.not_false, if_true, ite_true]
          exact ⟨[Call.shutdownVm vmid, Call.waitStopped vmid], by simp,
            by intro v ps; simp⟩
      · simp only [hsd, Bool.not_false, if_true, ite_true]
        exact ⟨[Call.shutdownVm vmid], by simp, by intro v ps; simp⟩
    · simp only [hsn, if_false, ite_false, Bool.false_eq_true]
      exact ⟨(statusRes env vmid new.status).2, by simp,
        by intro v ps; simp [statusRes_no_setVmConfig]⟩
  · simp only [hup, Bool.not_false, if_true, ite_true]
    exact ⟨[], by simp, by intro v ps; simp⟩

theorem update_shrink_trace (old new : VMCfg) (vmid : Nat) (env : UpdateEnv)
    (hge : ¬ old.disks.length < new.disks.length)
    (hne : old.disks ≠ new.disks)
    (htpl : old.templateName = new.templateName)
    (hchk : env.checkOk = true) (hdd : env.deleteDisksOk = true)
    (hdu : env.deleteUnusedOk = true) :
    ∃ tail, (resourceVMUpdate old new vmid env).2 =
      [Call.checkVmRef vmid,
        Call.setVmConfig vmid [("delete", .str (String.intercalate ","
          (detachDevices new.disks.length old.disks.length)))],
        Call.setVmConfig vmid [("delete", .str (String.intercalate ","
          (unusedDevices (detachDevices new.disks.length old.disks.length).length)))]] ++ tail
    ∧ ∀ v ps, Call.setVmConfig v ps ∈ tail →
        ps = updateEntries old new ∧ 0 < (updateEntries old new).length := by
  have htake : old.disks ≠ new.disks ∧ ¬ old.disks.length < new.disks.length := ⟨hne, hge⟩
  unfold resourceVMUpdate
  simp only [hchk, hdd, hdu, Bool.not_true, Bool.false_eq_true, if_false, if_pos htake,
    ite_false, ite_true, not_false_eq_true, htpl, ne_eq, not_true_eq_false,
    statusReconcile_shift]
  by_cases hpos : 0 < (updateEntries old new).length
  · simp only [hpos, if_true, ite_true]
    by_cases hc2 : env.check2Ok
    · simp only [hc2, Bool.not_true, Bool.false_eq_true, if_false, ite_false]
      by_cases hup : env.setUpdatesOk
      · simp only [hup, Bool.not_true, Bool.false_eq_true, if_false, ite_false]
        by_cases hsn : (decide ¬old.cores = new.cores || decide ¬old.memory = new.memory) = true
        · simp only [hsn, if_true, ite_true]
          by_cases hsd : env.shutdownOk
          · simp only [hsd, Bool.not_true, Bool.false_eq_true, if_false, ite_false]
            by_cases hw : env.waitOk
            · simp only [hw, Bool.not_true, Bool.false_eq_true, if_false, ite_false]
              refine ⟨[Call.checkVmRef vmid, Call.setVmConfig vmid (updateEntries old new),
                  Call.shutdownVm vmid, Call.waitStopped vmid] ++
                  (statusRes env vmid new.status).2, by simp, ?_⟩
              intro v ps hmem
              simp [statusRes_no_setVmConfig] at hmem
              exact ⟨hmem.2, by first | exact hpos | trivial⟩
            · simp only [hw, Bool.not_false, if_true, ite_true]
              refine ⟨[Call.checkVmRef vmid, Call.setVmConfig vmid (updateEntries old new),
                  Call.shutdownVm vmid, Call.waitStopped vmid], by simp, ?_⟩
              intro v ps hmem
              simp at hmem
              exact ⟨hmem.2, by first | exact hpos | trivial⟩
          · simp only [hsd, Bool.not_false, if_true, ite_true]
            refine ⟨[Call.checkVmRef vmid, Call.setVmConfig vmid (updateEntries old new),
                Call.shutdownVm vmid], by simp, ?_⟩
            intro v ps hmem
            simp at hmem
            exact ⟨hmem.2, by first | exact hpos | trivial⟩
        · simp only [hsn, if_false, ite_false, Bool.false_eq_true]
          refine ⟨[Call.checkVmRef vmid, Call.setVmConfig vmid (updateEntries old new)] ++
              (statusRes env vmid new.status).2, by simp, ?_⟩
          intro v ps hmem
          simp [statusRes_no_setVmConfig] at hmem
          exact ⟨hmem.2, by first | exact hpos | trivial⟩
      · simp only [hup, Bool.not_false, if_true, ite_true]
        refine ⟨[Call.checkVmRef vmid, Call.setVmConfig vmid (updateEntries old new)],
          by simp, ?_⟩
        intro v ps hmem
        simp at hmem
        exact ⟨hmem.2, by first | exact hpos | trivial⟩
    · simp only [hc2, Bool.not_false, if_true, ite_true]
      exact ⟨[Call.checkVmRef vmid], by simp, by intro v ps hmem; simp at hmem⟩
  · simp only [hpos, if_false, ite_false]
    by_cases hsn : (decide ¬old.cores = new.cores || decide ¬old.memory = new.memory) = true
    · simp only [hsn, if_true, ite_true]
      by_cases hsd : env.shutdownOk
      · simp only [hsd, Bool.not_true, Bool.false_eq_true, if_false, ite_false]
        by_cases hw : env.waitOk
        · simp only [hw, Bool.not_true, Bool.false_eq_true, if_false, ite_false]
          refine ⟨[Call.shutdownVm vmid, Call.waitStopped vmid] ++
              (statusRes env vmid new.status).2, by simp, ?_⟩
          intro v ps hmem
          simp [statusRes_no_setVmConfig] at hmem
        · exact ⟨[Call.shutdownVm vmid, Call.waitStopped vmid], by simp [hw],
            by intro v ps hmem; simp at hmem⟩
      · exact ⟨[Call.shutdownVm vmid], by simp [hsd],
          by intro v ps hmem; simp at hmem⟩
    · simp only [hsn, if_false, ite_false, Bool.false_eq_true]
      refine ⟨(statusRes env vmid new.status).2, by simp, ?_⟩
      intro v ps hmem
      exact absurd hmem (statusRes_no_setVmConfig env vmid new.status v ps)

theorem scanLines_skip_none (b : String) (noise rest : List String) (f : String)
    (h : ∀ l ∈ noise, l ≠ "CMD-BEGIN-" ++ b ++ "\r\n") :
    scanLines b (noise ++ rest) .sNone f = scanLines b rest .sNone f := by
  induction noise with
  | nil => rfl
  | cons x xs ih =>
    have hx : x ≠ "CMD-BEGIN-" ++ b ++ "\r\n" := h x (by simp)
    simp only [List.cons_append, scanLines, if_neg hx]
    exact ih (fun l hl => h l (by simp [hl]))

theorem scanLines_skip_begin (b : String) (noise rest : List String) (f : String)
    (h : ∀ l ∈ noise, l ≠ "CMD-FINISH-" ++ b ++ "\r\n") :
    scanLines b (noise ++ rest) .sBegin f = scanLines b rest .sBegin f := by
  induction noise with
  | nil => rfl
  | cons x xs ih =>
    have hx : x ≠ "CMD-FINISH-" ++ b ++ "\r\n" := h x (by simp)
    simp only [List.cons_append, scanLines, if_neg hx]
    exact ih (fun l hl => h l (by simp [hl]))

theorem scanLines_protocol (b : String) (noise1 noise2 : List String) (statusLine : String)
    (h1 : ∀ l ∈ noise1, l ≠ "CMD-BEGIN-" ++ b ++ "\r\n")
    (h2 : ∀ l ∈ noise2, l ≠ "CMD-FINISH-" ++ b ++ "\r\n")
    (h3 : statusLine ≠ "CMD-END-" ++ b ++ "\r\n") :
    scanLines b
      (noise1 ++ ["CMD-BEGIN-" ++ b ++ "\r\n"] ++ noise2 ++
        ["CMD-FINISH-" ++ b ++ "\r\n", statusLine, "CMD-END-" ++ b ++ "\r\n"])
      .sNone "" = some statusLine := by
  rw [show noise1 ++ ["CMD-BEGIN-" ++ b ++ "\r\n"] ++ noise2 ++
      ["CMD-FINISH-" ++ b ++ "\r\n", statusLine, "CMD-END-" ++ b ++ "\r\n"] =
      noise1 ++ (["CMD-BEGIN-" ++ b ++ "\r\n"] ++ (noise2 ++
      ["CMD-FINISH-" ++ b ++ "\r\n", statusLine, "CMD-END-" ++ b ++ "\r\n"])) by simp]
  rw [scanLines_skip_none b noise1 _ "" h1]
  simp only [List.singleton_append, scanLines, if_pos rfl]
  simp only [if_true, ite_true, List.append_eq, List.nil_append]
  rw [scanLines_skip_begin b noise2 _ "" h2]
  simp [scanLines, h3]

theorem addrFold_eq (addrs : List IpAddr) (acc : Option String) :
    addrs.foldl (fun acc ip => match ip with | IpAddr.v4 s => some s | IpAddr.v6 _ => acc) acc =
      ((collectV4 addrs).getLast?).or acc := by
  induction addrs generalizing acc with
  | nil => simp [collectV4]
  | cons a rest ih =>
    cases a with
    | v4 s =>
      rw [List.foldl_cons, ih]
      have hc : collectV4 (IpAddr.v4 s :: rest) = [s] ++ collectV4 rest := by
        simp [collectV4]
      rw [hc, List.getLast?_append, Option.or_assoc]
      rfl
    | v6 s =>
      rw [List.foldl_cons, ih]
      have hc : collectV4 (IpAddr.v6 s :: rest) = collectV4 rest := by
        simp [collectV4]
      rw [hc]

theorem scanIfaces_eq (ifaces : List Iface) (prev : Option String) :
    scanIfaces ifaces prev = lastEth0V4 ifaces prev := by
  induction ifaces generalizing prev with
  | nil => simp [scanIfaces, lastEth0V4, collectV4]
  | cons i rest ih =>
    have hstep : scanIfaces (i :: rest) prev =
        scanIfaces rest (if i.name = "eth0" then
          i.addrs.foldl (fun acc ip =>
            match ip with | IpAddr.v4 s => some s | IpAddr.v6 _ => acc) prev
        else prev) := by
      unfold scanIfaces
      rw [List.foldl_cons]
    rw [hstep, ih]
    by_cases hn : i.name = "eth0"
    · have hfilter : (i :: rest).filter (fun j => j.name == "eth0") =
          i :: rest.filter (fun j => j.name == "eth0") := by
        simp [List.filter_cons, hn]
      rw [if_pos hn, addrFold_eq]
      unfold lastEth0V4
      rw [hfilter, List.flatMap_cons]
      have hsplit : collectV4 (i.addrs ++ (rest.filter (fun j => j.name == "eth0")).flatMap
          (fun j => j.addrs)) =
          collectV4 i.addrs ++ collectV4 ((rest.filter (fun j => j.name == "eth0")).flatMap
            (fun j => j.addrs)) := by
        simp [collectV4]
      rw [hsplit, List.getLast?_append, Option.or_assoc]
    · have hfilter : (i :: rest).filter (fun j => j.name == "eth0") =
          rest.filter (fun j => j.name == "eth0") := by
        simp [List.filter_cons, hn]
      rw [if_neg hn]
      unfold lastEth0V4
      rw [hfilter]

theorem waitIP_retries (timeout poll : Nat) (errs : List String)
    (ifaces : List Iface) (prev : Option String) (elapsed : Nat)
    (herrs : ∀ m ∈ errs, strContains m "guest agent is not running" = true)
    (htime : elapsed + errs.length * poll < timeout) :
    waitVMBootUpGetIP timeout poll (errs.map Except.error ++ [Except.ok ifaces]) prev elapsed =
      .ok (lastEth0V4 ifaces prev) := by
  induction errs generalizing elapsed with
  | nil =>
    simp at htime
    unfold waitVMBootUpGetIP
    rw [if_neg (by omega)]
    simp [scanIfaces_eq]
  | cons m rest ih =>
    have hm := herrs m (by simp)
    have hstep : (elapsed + poll) + rest.length * poll = elapsed + (rest.length + 1) * poll := by
      ring
    unfold waitVMBootUpGetIP
    rw [if_neg (by
      have : (rest.length + 1) * poll ≥ 0 := Nat.zero_le _
      simp only [List.length_cons] at htime
      omega)]
    simp only [List.map_cons, List.cons_append]
    rw [hm]
    simp only [if_true, ite_true]
    exact ih (elapsed + poll) (fun x hx => herrs x (List.mem_cons_of_mem _ hx))
      (by rw [hstep]; simpa using htime)

theorem createUserData_no_clone (cfg : VMCfg) (env : CreateEnv) (newid : Nat)
    (updates : List (String × Value)) (s n : Nat) (nm tgt : String) :
    Call.cloneVm s n nm tgt ∉ (createUserData cfg env newid updates).2.1 := by
  unfold createUserData
  repeat' split
  all_goals simp_all

theorem createApply_no_clone (env : CreateEnv) (newid : Nat)
    (updates : List (String × Value)) (s n : Nat) (nm tgt : String) :
    Call.cloneVm s n nm tgt ∉ (createApply env newid updates).2 := by
  unfold createApply
  repeat' split
  all_goals simp_all

theorem createStart_no_clone (cfg : VMCfg) (env : CreateEnv) (newid : Nat)
    (s n : Nat) (nm tgt : String) :
    Call.cloneVm s n nm tgt ∉ (createStart cfg env newid).2 := by
  unfold createStart
  repeat' split
  all_goals simp_all

theorem createAfterClone_no_clone (cfg : VMCfg) (env : CreateEnv) (newid : Nat)
    (s n : Nat) (nm tgt : String) :
    Call.cloneVm s n nm tgt ∉ (createAfterClone cfg env newid).2 := by
  unfold createAfterClone
  have h1 := createUserData_no_clone cfg env newid (createBaseEntries cfg) s n nm tgt
  have h2 := createApply_no_clone env newid
    (createUserData cfg env newid (createBaseEntries cfg)).2.2 s n nm tgt
  have h3 := createStart_no_clone cfg env newid s n nm tgt
  repeat' split
  all_goals simp_all

theorem createAfterClone_pair_no_clone {cfg : VMCfg} {env : CreateEnv} {newid : Nat}
    {r : Except CErr Unit} {tr : List Call} {s n : Nat} {nm tgt : String}
    (hpair : createAfterClone cfg env newid = (r, tr)) :
    Call.cloneVm s n nm tgt ∉ tr := by
  intro hm
  have hn := createAfterClone_no_clone cfg env newid s n nm tgt
  rw [hpair] at hn
  exact hn hm

/-! ## Claim theorems -/

/-- C1: during a template swap, once the auxiliary VM has been cloned in
step 1, exactly one delete call for that auxiliary VM is issued on every
exit path of the swap — whether steps 2–5 succeed or fail — and a
failure of that delete is logged, not propagated: the swap's entire
result is unchanged by the delete's outcome. -/
theorem c1_aux_cleanup (env : ReplaceEnv) (vmName : String) (vmid tplid : Nat)
    (tplNode : String) (tplCfg vmCfg : VmKV) (newid : Nat)
    (h1 : env.tplConfig = .ok tplCfg) (h2 : env.vmConfig = .ok vmCfg)
    (h3 : cfgGet tplCfg "bootdisk" = cfgGet vmCfg "bootdisk")
    (h4 : cfgGet tplCfg "scsihw" = cfgGet vmCfg "scsihw")
    (h5 : env.nextId = .ok newid) (h6 : env.cloneOk = true) :
    ((replaceTemplate env vmName vmid tplid tplNode).2.count (Call.deleteVm newid) = 1)
    ∧ (∀ b, replaceTemplate { env with deleteAuxOk := b } vmName vmid tplid tplNode =
        replaceTemplate env vmName vmid tplid tplNode) := by
  constructor
  · unfold replaceTemplate
    rw [h1, h2]
    simp [h3, h4, h5, h6]
    exact List.count_eq_zero_of_not_mem
      (replaceAfterClone_no_deleteVm env tplCfg vmCfg vmid newid newid)
  · intro b
    unfold replaceTemplate replaceAfterClone
    rfl

/-- Witness for C1 at a concrete compatible swap environment. -/
theorem c1_aux_cleanup_witness :
    ((replaceTemplate renvW "vm1" 100 7 "pve").2.count (Call.deleteVm 101) = 1)
    ∧ (∀ b, replaceTemplate { renvW with deleteAuxOk := b } "vm1" 100 7 "pve" =
        replaceTemplate renvW "vm1" 100 7 "pve") :=
  c1_aux_cleanup renvW "vm1" 100 7 "pve" tplCfgW vmCfgW 101 rfl rfl (by decide)
    (by decide) rfl rfl

/-- C6: when the template's and the target VM's configs disagree on the
`bootdisk` device or the `scsihw` controller type, `replaceTemplate`
fails with the incompatibility error and performs no mutation: the only
cluster calls issued are the two config reads. -/
theorem c6_incompatible (env : ReplaceEnv) (vmName : String) (vmid tplid : Nat)
    (tplNode : String) (tplCfg vmCfg : VmKV)
    (h1 : env.tplConfig = .ok tplCfg) (h2 : env.vmConfig = .ok vmCfg)
    (h3 : cfgGet tplCfg "bootdisk" ≠ cfgGet vmCfg "bootdisk" ∨
      cfgGet tplCfg "scsihw" ≠ cfgGet vmCfg "scsihw") :
    (replaceTemplate env vmName vmid tplid tplNode).1 =
      .error (.incompatible
        (if cfgGet tplCfg "bootdisk" ≠ cfgGet vmCfg "bootdisk" then "bootdisk" else "scsihw"))
    ∧ (replaceTemplate env vmName vmid tplid tplNode).2 =
      [Call.getVmConfig tplid, Call.getVmConfig vmid] := by
  unfold replaceTemplate
  rw [h1, h2]
  by_cases hb : cfgGet tplCfg "bootdisk" = cfgGet vmCfg "bootdisk"
  · have hs : cfgGet tplCfg "scsihw" ≠ cfgGet vmCfg "scsihw" := by tauto
    simp [hb, hs]
  · simp [hb]

/-- Witness for C6 at a concrete boot-disk mismatch. -/
theorem c6_incompatible_witness :
    (replaceTemplate { renvW with vmConfig := .ok vmCfgIncompatW } "vm1" 100 7 "pve").1 =
      .error (.incompatible
        (if cfgGet tplCfgW "bootdisk" ≠ cfgGet vmCfgIncompatW "bootdisk" then "bootdisk"
          else "scsihw"))
    ∧ (replaceTemplate { renvW with vmConfig := .ok vmCfgIncompatW } "vm1" 100 7 "pve").2 =
      [Call.getVmConfig 7, Call.getVmConfig 100] :=
  c6_incompatible { renvW with vmConfig := .ok vmCfgIncompatW } "vm1" 100 7 "pve"
    tplCfgW vmCfgIncompatW rfl rfl (by decide)

/-- C2: for every executor invocation, a ticket handshake that is not
`"OK"` fails with the ticket-rejection error before the command frame is
sent; and over a working channel whose stream carries the protocol
markers with `exit_status=n`, the call returns no error when `n = 0` and
the command-failed error carrying `n` otherwise. -/
theorem c2_exec_exit_status (env : ExecEnv) (cmd bnd : String) :
    (∀ s, env.termproxy.isOk → env.urlParseOk = true → env.wsConfigOk = true →
      env.dialOk = true → env.sendTicketOk = true → env.handshake = some s → s ≠ "OK" →
      (executeCommandOnNode env cmd bnd).1 = .error .ticketRejected ∧
        ∀ p, Frame.command p ∉ (executeCommandOnNode env cmd bnd).2)
    ∧ (∀ noise1 noise2 statusLine n, channelOk env = true →
        env.lines = noise1 ++ ["CMD-BEGIN-" ++ bnd ++ "\r\n"] ++ noise2 ++
          ["CMD-FINISH-" ++ bnd ++ "\r\n", statusLine, "CMD-END-" ++ bnd ++ "\r\n"] →
        (∀ l ∈ noise1, l ≠ "CMD-BEGIN-" ++ bnd ++ "\r\n") →
        (∀ l ∈ noise2, l ≠ "CMD-FINISH-" ++ bnd ++ "\r\n") →
        statusLine ≠ "CMD-END-" ++ bnd ++ "\r\n" →
        parseExitStatus statusLine = some n →
        ((n = 0 → (executeCommandOnNode env cmd bnd).1 = .ok ())
          ∧ (n ≠ 0 → (executeCommandOnNode env cmd bnd).1 = .error (.commandFailed n)))) := by
  constructor
  · intro s htp hu hw hd hst hh hs
    obtain ⟨tp, htp2⟩ : ∃ tp, env.termproxy = .ok tp := by
      cases h : env.termproxy with
      | ok tp => exact ⟨tp, rfl⟩
      | error e => rw [h] at htp; simp [Except.isOk, Except.toBool] at htp
    unfold executeCommandOnNode
    rw [htp2, hh]
    simp [hu, hw, hd, hst, hs]
  · intro noise1 noise2 statusLine n hch hlines hn1 hn2 hsl hparse
    simp only [channelOk, Bool.and_eq_true, beq_iff_eq] at hch
    obtain ⟨⟨⟨⟨⟨⟨⟨⟨htp, hu⟩, hw⟩, hd⟩, hst⟩, hh⟩, hrs⟩, hsc⟩, hsn⟩ := hch
    obtain ⟨tp, htp2⟩ : ∃ tp, env.termproxy = .ok tp := by
      cases h : env.termproxy with
      | ok tp => exact ⟨tp, rfl⟩
      | error e => rw [h] at htp; simp at htp
    have hscan := scanLines_protocol bnd noise1 noise2 statusLine hn1 hn2 hsl
    unfold executeCommandOnNode
    rw [htp2, hh, hlines, hscan]
    simp only [hu, hw, hd, hst, hrs, hsc, hsn, hparse]
    constructor
    · intro h0
      simp [h0]
    · intro hn0
      simp [hn0]

/-- Witness for C2: a rejected handshake, a zero-status stream, and an
exit-status-7 stream, at concrete environments. -/
theorem c2_exec_exit_status_witness :
    ((executeCommandOnNode { xenvW with handshake := some "NOPE" } "ls" "b").1 =
        .error .ticketRejected
      ∧ ∀ p, Frame.command p ∉
          (executeCommandOnNode { xenvW with handshake := some "NOPE" } "ls" "b").2)
    ∧ ((executeCommandOnNode xenvW "ls" "b").1 = .ok ())
    ∧ ((executeCommandOnNode { xenvW with
          lines := ["CMD-BEGIN-b\r\n", "CMD-FINISH-b\r\n", "exit_status=7\r\n",
            "CMD-END-b\r\n"] } "ls" "b").1 = .error (.commandFailed 7)) := by
  refine ⟨(c2_exec_exit_status { xenvW with handshake := some "NOPE" } "ls" "b").1 "NOPE"
      (by decide) rfl rfl rfl rfl rfl (by decide), ?_, ?_⟩
  · exact ((c2_exec_exit_status xenvW "ls" "b").2 [] [] "exit_status=0\r\n" 0 (by decide)
      rfl (by simp) (by simp) (by decide) (by decide)).1 rfl
  · exact ((c2_exec_exit_status { xenvW with
        lines := ["CMD-BEGIN-b\r\n", "CMD-FINISH-b\r\n", "exit_status=7\r\n",
          "CMD-END-b\r\n"] } "ls" "b").2 [] [] "exit_status=7\r\n" 7 (by decide)
      rfl (by simp) (by simp) (by decide) (by decide)).2 (by decide)

theorem range'_shift_scsi (m k : Nat) :
    (List.range' m k).map (fun i => "scsi" ++ toString (i + 1)) =
      (List.range' (m + 1) k).map (fun s => "scsi" ++ toString s) := by
  induction k generalizing m with
  | zero => rfl
  | succ k ih =>
    rw [List.range'_succ, List.range'_succ, List.map_cons, List.map_cons, ih]

theorem diskAttachUpdates_fst (k : Nat) (ds : List Disk) :
    (diskAttachUpdates k ds).map Prod.fst =
      (List.range' (k + 1) (ds.length - k)).map (fun slot => "scsi" ++ toString slot) := by
  unfold diskAttachUpdates
  rw [List.map_map]
  rw [show (Prod.fst ∘ fun p : Nat × Disk => diskAttachEntry p.1 p.2) =
      (fun i => "scsi" ++ toString (i + 1)) ∘ Prod.fst from rfl]
  rw [← List.map_map, List.map_drop, List.enum_map_fst, range_drop_aux,
    range'_shift_scsi]

theorem diskAttachUpdates_mem (k : Nat) (ds : List Disk) :
    ∀ pr ∈ diskAttachUpdates k ds, ∃ i d, ds.get? i = some d ∧ k ≤ i ∧
      pr = ("scsi" ++ toString (i + 1),
        Value.str (d.storage ++ ":" ++ toString d.size ++ ",format=qcow2")) := by
  intro pr hpr
  unfold diskAttachUpdates at hpr
  obtain ⟨p, hp, hpr2⟩ := List.mem_map.mp hpr
  refine ⟨p.1, p.2, ?_, ?_, hpr2.symm⟩
  · rw [List.get?_eq_getElem?]
    exact List.mem_enum_iff_getElem?.mp (List.mem_of_mem_drop hp)
  · have hfst : p.1 ∈ (ds.enum.drop k).map Prod.fst := List.mem_map_of_mem _ hp
    rw [List.map_drop, List.enum_map_fst, range_drop_aux] at hfst
    exact (List.mem_range'_1.mp hfst).1

/-- C3: when the desired disk list strictly extends the current one, the
update plans exactly `|D2|-|D1|` attach entries at device slots
`|D1|+1 … |D2|` (`scsi<slot>`), each formatted
`storage:sizeGB,format=qcow2`; they travel in the single batched config
write, and no detach (`delete`) config write is issued. -/
theorem c3_disk_attach (old new : VMCfg) (vmid : Nat) (env : UpdateEnv)
    (hext : old.disks <+: new.disks)
    (hlen : old.disks.length < new.disks.length)
    (htpl : old.templateName = new.templateName)
    (hchk : env.checkOk = true) (hchk2 : env.check2Ok = true) :
    (diskAttachUpdates old.disks.length new.disks).length
        = new.disks.length - old.disks.length
    ∧ (diskAttachUpdates old.disks.length new.disks).map Prod.fst
        = (List.range' (old.disks.length + 1) (new.disks.length - old.disks.length)).map
            (fun slot => "scsi" ++ toString slot)
    ∧ (∀ pr ∈ diskAttachUpdates old.disks.length new.disks, ∃ i d,
        new.disks.get? i = some d ∧ old.disks.length ≤ i ∧
        pr = ("scsi" ++ toString (i + 1),
          Value.str (d.storage ++ ":" ++ toString d.size ++ ",format=qcow2")))
    ∧ (∃ ps, Call.setVmConfig vmid ps ∈ (resourceVMUpdate old new vmid env).2 ∧
        diskAttachUpdates old.disks.length new.disks <:+ ps)
    ∧ (∀ v, Call.setVmConfig vmid [("delete", v)] ∉ (resourceVMUpdate old new vmid env).2) := by
  have hne : old.disks ≠ new.disks := by
    intro h
    rw [h] at hlen
    omega
  obtain ⟨tail, htr, htail⟩ := update_attach_trace old new vmid env hlen hne htpl hchk hchk2
  refine ⟨diskAttachUpdates_length _ _, diskAttachUpdates_fst _ _,
    diskAttachUpdates_mem _ _, ?_, ?_⟩
  · refine ⟨updateEntries old new, ?_, ?_⟩
    · rw [htr]
      simp
    · unfold updateEntries
      simp only [hne, hlen, and_true, ne_eq, not_false_eq_true, if_true, ite_true]
      exact List.suffix_append _ _
  · intro v hmem
    rw [htr] at hmem
    simp only [List.cons_append, List.nil_append, List.mem_cons] at hmem
    rcases hmem with h | h | h | h
    · exact absurd h (by simp)
    · exact absurd h (by simp)
    · have : ("delete", v) ∈ updateEntries old new := by
        have h2 := (Call.setVmConfig.injEq _ _ _ _).mp h.symm
        rw [h2.2]
        simp
      exact absurd rfl (updateEntries_no_delete old new _ this)
    · exact absurd h (by
        intro hmem2
        exact htail vmid [("delete", v)] hmem2)

/-- Witness for C3: one existing disk extended to three. -/
theorem c3_disk_attach_witness :
    ((diskAttachUpdates 1 [⟨"a", 1⟩, ⟨"b", 2⟩, ⟨"c", 3⟩]).length = 3 - 1)
    ∧ ((diskAttachUpdates 1 [⟨"a", 1⟩, ⟨"b", 2⟩, ⟨"c", 3⟩]).map Prod.fst
        = (List.range' (1 + 1) (3 - 1)).map (fun slot => "scsi" ++ toString slot))
    ∧ (∀ pr ∈ diskAttachUpdates 1 [⟨"a", 1⟩, ⟨"b", 2⟩, ⟨"c", 3⟩], ∃ i d,
        [Disk.mk "a" 1, ⟨"b", 2⟩, ⟨"c", 3⟩].get? i = some d ∧ 1 ≤ i ∧
        pr = ("scsi" ++ toString (i + 1),
          Value.str (d.storage ++ ":" ++ toString d.size ++ ",format=qcow2")))
    ∧ (∃ ps, Call.setVmConfig 100 ps ∈
        (resourceVMUpdate { cfgW with disks := [⟨"a", 1⟩] }
          { cfgW with disks := [⟨"a", 1⟩, ⟨"b", 2⟩, ⟨"c", 3⟩] } 100 uenvW).2 ∧
        diskAttachUpdates 1 [⟨"a", 1⟩, ⟨"b", 2⟩, ⟨"c", 3⟩] <:+ ps)
    ∧ (∀ v, Call.setVmConfig 100 [("delete", v)] ∉
        (resourceVMUpdate { cfgW with disks := [⟨"a", 1⟩] }
          { cfgW with disks := [⟨"a", 1⟩, ⟨"b", 2⟩, ⟨"c", 3⟩] } 100 uenvW).2) :=
  c3_disk_attach { cfgW with disks := [⟨"a", 1⟩] }
    { cfgW with disks := [⟨"a", 1⟩, ⟨"b", 2⟩, ⟨"c", 3⟩] } 100 uenvW
    (by decide) (by decide) rfl rfl rfl

/-- C4: when the desired disk list shrinks the current one, the update
issues exactly one batched detach config write deleting device slots
`|D2|+1 … |D1|` (`scsi<slot>`), immediately followed by exactly one
batched config write removing the `|D1|-|D2|` unused-disk placeholders
`unused0 … unused(|D1|-|D2|-1)`; no other config write of the update
carries a `delete` parameter. -/
theorem c4_disk_detach (old new : VMCfg) (vmid : Nat) (env : UpdateEnv)
    (hlen : new.disks.length < old.disks.length)
    (htpl : old.templateName = new.templateName)
    (hchk : env.checkOk = true) (hdd : env.deleteDisksOk = true)
    (hdu : env.deleteUnusedOk = true) :
    detachDevices new.disks.length old.disks.length =
      (List.range' (new.disks.length + 1) (old.disks.length - new.disks.length)).map
        (fun slot => "scsi" ++ toString slot)
    ∧ (detachDevices new.disks.length old.disks.length).length
        = old.disks.length - new.disks.length
    ∧ unusedDevices (detachDevices new.disks.length old.disks.length).length =
        (List.range (old.disks.length - new.disks.length)).map
          (fun i => "unused" ++ toString i)
    ∧ (resourceVMUpdate old new vmid env).2.take 3 =
        [Call.checkVmRef vmid,
          Call.setVmConfig vmid [("delete", .str (String.intercalate ","
            (detachDevices new.disks.length old.disks.length)))],
          Call.setVmConfig vmid [("delete", .str (String.intercalate ","
            (unusedDevices (detachDevices new.disks.length old.disks.length).length)))]]
    ∧ (resourceVMUpdate old new vmid env).2.countP isDeleteWrite = 2 := by
  have hne : old.disks ≠ new.disks := by
    intro h
    rw [h] at hlen
    omega
  have hge : ¬ old.disks.length < new.disks.length := by omega
  have hdlen : (detachDevices new.disks.length old.disks.length).length
      = old.disks.length - new.disks.length := by
    rw [detachDevices_eq]
    simp
  obtain ⟨tail, htr, htail⟩ := update_shrink_trace old new vmid env hge hne htpl hchk hdd hdu
  refine ⟨detachDevices_eq _ _, hdlen, by rw [hdlen]; rfl, by rw [htr]; rfl, ?_⟩
  rw [htr]
  rw [List.countP_append]
  have h1 : List.countP isDeleteWrite
      [Call.checkVmRef vmid,
        Call.setVmConfig vmid [("delete", .str (String.intercalate ","
          (detachDevices new.disks.length old.disks.length)))],
        Call.setVmConfig vmid [("delete", .str (String.intercalate ","
          (unusedDevices (detachDevices new.disks.length old.disks.length).length)))]] = 2 := by
    simp [List.countP_cons, isDeleteWrite]
  have h2 : List.countP isDeleteWrite tail = 0 := by
    rw [List.countP_eq_zero]
    intro c hc
    cases c with
    | setVmConfig v ps =>
      obtain ⟨hps, _⟩ := htail v ps hc
      subst hps
      have hfalse : (updateEntries old new).any (fun p => p.1 == "delete") = false := by
        rw [List.any_eq_false]
        intro p hp
        simpa using updateEntries_no_delete old new p hp
      simp [isDeleteWrite, hfalse]
    | getRefsByName a => simp [isDeleteWrite]
    | getVmConfig a => simp [isDeleteWrite]
    | getNextId => simp [isDeleteWrite]
    | cloneVm a b c d => simp [isDeleteWrite]
    | checkVmRef a => simp [isDeleteWrite]
    | moveDisk a b c => simp [isDeleteWrite]
    | deleteVm a => simp [isDeleteWrite]
    | startVm a => simp [isDeleteWrite]
    | shutdownVm a => simp [isDeleteWrite]
    | getVmState a => simp [isDeleteWrite]
    | waitStopped a => simp [isDeleteWrite]
    | waitIP a => simp [isDeleteWrite]
    | execCommand a b => simp [isDeleteWrite]
  rw [h1, h2]

/-- Witness for C4: three disks shrunk to one. -/
theorem c4_disk_detach_witness :
    (detachDevices 1 3 = (List.range' (1 + 1) (3 - 1)).map
      (fun slot => "scsi" ++ toString slot))
    ∧ ((detachDevices 1 3).length = 3 - 1)
    ∧ (unusedDevices (detachDevices 1 3).length =
        (List.range (3 - 1)).map (fun i => "unused" ++ toString i))
    ∧ ((resourceVMUpdate { cfgW with disks := [⟨"a", 1⟩, ⟨"b", 2⟩, ⟨"c", 3⟩] }
          { cfgW with disks := [⟨"a", 1⟩] } 100 uenvW).2.take 3 =
        [Call.checkVmRef 100,
          Call.setVmConfig 100 [("delete", .str (String.intercalate "," (detachDevices 1 3)))],
          Call.setVmConfig 100 [("delete", .str (String.intercalate ","
            (unusedDevices (detachDevices 1 3).length)))]])
    ∧ ((resourceVMUpdate { cfgW with disks := [⟨"a", 1⟩, ⟨"b", 2⟩, ⟨"c", 3⟩] }
          { cfgW with disks := [⟨"a", 1⟩] } 100 uenvW).2.countP isDeleteWrite = 2) :=
  c4_disk_detach { cfgW with disks := [⟨"a", 1⟩, ⟨"b", 2⟩, ⟨"c", 3⟩] }
    { cfgW with disks := [⟨"a", 1⟩] } 100 uenvW (by decide) rfl rfl rfl rfl

/-- Counterexample to C5 as stated: with current and desired disk lists
of equal length but different content, the update does issue a detach
config write to the cluster (with an empty device list), so "no detach
or unused-placeholder-removal config-write calls are issued" is false. -/
theorem c5_counterexample :
    ({ cfgW with disks := [⟨"a", 1⟩] } : VMCfg).disks.length =
      ({ cfgW with disks := [⟨"b", 1⟩] } : VMCfg).disks.length
    ∧ ({ cfgW with disks := [⟨"a", 1⟩] } : VMCfg).disks ≠
      ({ cfgW with disks := [⟨"b", 1⟩] } : VMCfg).disks
    ∧ Call.setVmConfig 100 [("delete", Value.str "")] ∈
      (resourceVMUpdate { cfgW with disks := [⟨"a", 1⟩] }
        { cfgW with disks := [⟨"b", 1⟩] } 100 uenvW).2 := by
  refine ⟨rfl, by decide, ?_⟩
  decide

/-- C5 amended: with equal-length but different disk lists (and no other
attribute changed), the update adds no attach entry and performs no real
detach, but it does issue the two batched delete config writes, each
with an empty device list — the trace starts with them, and every config
write of the update is such an empty delete. -/
theorem c5_equal_length (old new : VMCfg) (vmid : Nat) (env : UpdateEnv)
    (hlen : old.disks.length = new.disks.length) (hne : old.disks ≠ new.disks)
    (hname : old.name = new.name) (hcores : old.cores = new.cores)
    (hmem : old.memory = new.memory) (honboot : old.onboot = new.onboot)
    (htpl : old.templateName = new.templateName)
    (hchk : env.checkOk = true) (hdd : env.deleteDisksOk = true)
    (hdu : env.deleteUnusedOk = true) :
    detachDevices new.disks.length old.disks.length = []
    ∧ updateEntries old new = []
    ∧ (resourceVMUpdate old new vmid env).2.take 3 =
        [Call.checkVmRef vmid, Call.setVmConfig vmid [("delete", Value.str "")],
          Call.setVmConfig vmid [("delete", Value.str "")]]
    ∧ (∀ v ps, Call.setVmConfig v ps ∈ (resourceVMUpdate old new vmid env).2 →
        ps = [("delete", Value.str "")]) := by
  have hge : ¬ old.disks.length < new.disks.length := by omega
  have hdet : detachDevices new.disks.length old.disks.length = [] := by
    rw [detachDevices_eq]
    rw [hlen]
    simp
  have hent : updateEntries old new = [] := by
    unfold updateEntries
    simp [hname, hcores, hmem, honboot, hge]
  obtain ⟨tail, htr, htail⟩ := update_shrink_trace old new vmid env hge hne htpl hchk hdd hdu
  rw [hdet] at htr
  simp only [List.length_nil] at htr
  refine ⟨hdet, hent, by rw [htr]; rfl, ?_⟩
  intro v ps hmem
  rw [htr] at hmem
  simp only [List.cons_append, List.nil_append, List.mem_cons] at hmem
  rcases hmem with h | h | h | h
  · exact absurd h (by simp)
  · exact ((Call.setVmConfig.injEq _ _ _ _).mp h).2.trans (by rfl)
  · exact ((Call.setVmConfig.injEq _ _ _ _).mp h).2.trans (by rfl)
  · obtain ⟨hps, hpos⟩ := htail v ps h
    rw [hent] at hpos
    simp at hpos

/-- Witness for C5's amended claim at the counterexample's inputs. -/
theorem c5_equal_length_witness :
    detachDevices 1 1 = []
    ∧ updateEntries { cfgW with disks := [⟨"a", 1⟩] } { cfgW with disks := [⟨"b", 1⟩] } = []
    ∧ ((resourceVMUpdate { cfgW with disks := [⟨"a", 1⟩] }
          { cfgW with disks := [⟨"b", 1⟩] } 100 uenvW).2.take 3 =
        [Call.checkVmRef 100, Call.setVmConfig 100 [("delete", Value.str "")],
          Call.setVmConfig 100 [("delete", Value.str "")]])
    ∧ (∀ v ps, Call.setVmConfig v ps ∈
        (resourceVMUpdate { cfgW with disks := [⟨"a", 1⟩] }
          { cfgW with disks := [⟨"b", 1⟩] } 100 uenvW).2 →
        ps = [("delete", Value.str "")]) :=
  c5_equal_length { cfgW with disks := [⟨"a", 1⟩] } { cfgW with disks := [⟨"b", 1⟩] }
    100 uenvW rfl (by decide) rfl rfl rfl rfl rfl rfl rfl rfl

/-- C7: updating cores (or memory, or both) of a running VM whose
desired status is running produces the sequence: one batched config
write carrying the new value(s), then shutdown, wait-until-stopped,
start, and the agent IP wait (agent enabled); the shutdown/wait/start
cycle occurs exactly once even when both cores and memory changed. -/
theorem c7_core_update_sequence (old new : VMCfg) (vmid : Nat) (env : UpdateEnv)
    (cfg : VmKV)
    (hname : old.name = new.name) (honboot : old.onboot = new.onboot)
    (hdisks : old.disks = new.disks) (htpl : old.templateName = new.templateName)
    (hchange : old.cores ≠ new.cores ∨ old.memory ≠ new.memory)
    (hstatus : new.status = "running")
    (hchk : env.checkOk = true) (hchk2 : env.check2Ok = true)
    (hup : env.setUpdatesOk = true)
    (hsd : env.shutdownOk = true) (hw : env.waitOk = true)
    (hst : env.vmState = .ok "stopped")
    (hstart : env.startOk = true) (hcfg : env.vmConfig = .ok cfg)
    (hagent : agentEnabled cfg = true) (hip : env.waitIPOk = true) :
    resourceVMUpdate old new vmid env =
      (.ok (), [Call.checkVmRef vmid, Call.checkVmRef vmid,
        Call.setVmConfig vmid
          ((if old.cores ≠ new.cores then [("cores", Value.int new.cores)] else []) ++
           (if old.memory ≠ new.memory then [("memory", Value.int new.memory)] else [])),
        Call.shutdownVm vmid, Call.waitStopped vmid, Call.getVmState vmid,
        Call.startVm vmid, Call.getVmConfig vmid, Call.waitIP vmid])
    ∧ (resourceVMUpdate old new vmid env).2.count (Call.shutdownVm vmid) = 1
    ∧ (resourceVMUpdate old new vmid env).2.count (Call.waitStopped vmid) = 1
    ∧ (resourceVMUpdate old new vmid env).2.count (Call.startVm vmid) = 1 := by
  have hent : updateEntries old new =
      (if old.cores ≠ new.cores then [("cores", Value.int new.cores)] else []) ++
      (if old.memory ≠ new.memory then [("memory", Value.int new.memory)] else []) := by
    unfold updateEntries
    simp [hname, honboot, hdisks]
  have hpos : 0 < (updateEntries old new).length := by
    rw [hent]
    rcases hchange with h | h <;> simp [h]
  have hsn : (decide ¬old.cores = new.cores || decide ¬old.memory = new.memory) = true := by
    rcases hchange with h | h <;> simp [h]
  have hres : statusRes env vmid "running" =
      (.ok (), [Call.getVmState vmid, Call.startVm vmid, Call.getVmConfig vmid,
        Call.waitIP vmid]) := by
    unfold statusRes statusReconcile
    rw [hst]
    simp only [ite_true, ite_false, if_true, if_false]
    norm_num
    rw [hcfg]
    simp [hagent, hstart, hip]
  have hmain : resourceVMUpdate old new vmid env =
      (.ok (), [Call.checkVmRef vmid, Call.checkVmRef vmid,
        Call.setVmConfig vmid
          ((if old.cores ≠ new.cores then [("cores", Value.int new.cores)] else []) ++
           (if old.memory ≠ new.memory then [("memory", Value.int new.memory)] else [])),
        Call.shutdownVm vmid, Call.waitStopped vmid, Call.getVmState vmid,
        Call.startVm vmid, Call.getVmConfig vmid, Call.waitIP vmid]) := by
    unfold resourceVMUpdate
    simp only [statusReconcile_shift]
    simp only [hchk, hchk2, hup, hsd, hw, hsn, hstatus, hdisks,
      htpl, ne_eq, not_true_eq_false, Bool.not_true, Bool.false_eq_true, if_false,
      ite_false, ite_true, if_true, not_false_eq_true, and_false, false_and, hpos,
      hres, hent]
    rcases hchange with h | h <;> simp [h]
  refine ⟨hmain, ?_, ?_, ?_⟩ <;> rw [show (resourceVMUpdate old new vmid env).2 =
      [Call.checkVmRef vmid, Call.checkVmRef vmid,
        Call.setVmConfig vmid
          ((if old.cores ≠ new.cores then [("cores", Value.int new.cores)] else []) ++
           (if old.memory ≠ new.memory then [("memory", Value.int new.memory)] else [])),
        Call.shutdownVm vmid, Call.waitStopped vmid, Call.getVmState vmid,
        Call.startVm vmid, Call.getVmConfig vmid, Call.waitIP vmid]
      from by rw [hmain]] <;> simp [List.count_cons]

/-- Witness for C7: cores 1→2 and memory 512→1024 on a running VM. -/
theorem c7_core_update_sequence_witness :
    resourceVMUpdate cfgW { cfgW with cores := 2, memory := 1024 } 100 uenvW =
      (.ok (), [Call.checkVmRef 100, Call.checkVmRef 100,
        Call.setVmConfig 100
          ((if cfgW.cores ≠ ({ cfgW with cores := 2, memory := 1024 } : VMCfg).cores then
              [("cores", Value.int ({ cfgW with cores := 2, memory := 1024 } : VMCfg).cores)]
            else []) ++
           (if cfgW.memory ≠ ({ cfgW with cores := 2, memory := 1024 } : VMCfg).memory then
              [("memory", Value.int ({ cfgW with cores := 2, memory := 1024 } : VMCfg).memory)]
            else [])),
        Call.shutdownVm 100, Call.waitStopped 100, Call.getVmState 100,
        Call.startVm 100, Call.getVmConfig 100, Call.waitIP 100])
    ∧ (resourceVMUpdate cfgW { cfgW with cores := 2, memory := 1024 } 100 uenvW).2.count
        (Call.shutdownVm 100) = 1
    ∧ (resourceVMUpdate cfgW { cfgW with cores := 2, memory := 1024 } 100 uenvW).2.count
        (Call.waitStopped 100) = 1
    ∧ (resourceVMUpdate cfgW { cfgW with cores := 2, memory := 1024 } 100 uenvW).2.count
        (Call.startVm 100) = 1 :=
  c7_core_update_sequence cfgW { cfgW with cores := 2, memory := 1024 } 100 uenvW
    [("agent", .str "enabled=1")] rfl rfl rfl rfl (by decide) rfl rfl rfl rfl rfl rfl
    rfl rfl rfl (by decide) rfl

/-- Counterexample to C8 as stated: for a running, agent-enabled VM
whose 1-second IP refresh fails (the agent keeps reporting not running,
so the short deadline elapses), the Read operation itself fails instead
of succeeding with the stored address. -/
theorem c8_counterexample :
    waitVMBootUpGetIP 1 2 readEnvW.agentResponses (some "10.0.0.5") 0 =
      .error .timeoutErr
    ∧ (resourceVMRead 100 (some "10.0.0.5") readEnvW).1 =
      .error (.ipWait .timeoutErr) := by
  constructor <;> rfl

/-- C8 amended: during Read of a running, agent-enabled VM, a failure of
the 1-second IP refresh is propagated — the Read fails with that error;
only a refresh whose successful query finds no eth0 IPv4 is non-fatal
and leaves the previously stored `ipv4_address` unchanged. -/
theorem c8_read_ip_refresh (vmid : Nat) (prev : Option String) (env : ReadEnv)
    (cfg : VmKV)
    (hchk : env.check = .ok) (hcfg : env.vmConfig = .ok cfg)
    (hstatus : env.vmStatus = .ok "running") (hagent : agentEnabled cfg = true) :
    (∀ e, waitVMBootUpGetIP 1 2 env.agentResponses prev 0 = .error e →
      (resourceVMRead vmid prev env).1 = .error (.ipWait e))
    ∧ (∀ ifaces rest, env.agentResponses = .ok ifaces :: rest →
        collectV4 ((ifaces.filter (fun i => i.name == "eth0")).flatMap
          (fun i => i.addrs)) = [] →
        ∃ st, (resourceVMRead vmid prev env).1 = .ok st ∧ st.ipv4 = prev) := by
  constructor
  · intro e he
    unfold resourceVMRead
    rw [hchk, hcfg, hstatus]
    simp only [vmConfigToState, hagent, and_true, if_pos rfl, ite_true, if_true]
    rw [he]
  · intro ifaces rest hresp hmiss
    have hwait : waitVMBootUpGetIP 1 2 env.agentResponses prev 0 = .ok prev := by
      rw [hresp]
      unfold waitVMBootUpGetIP
      rw [if_neg (by omega)]
      simp only []
      rw [scanIfaces_eq]
      unfold lastEth0V4
      rw [hmiss]
      rfl
    unfold resourceVMRead
    rw [hchk, hcfg, hstatus]
    simp only [vmConfigToState, hagent, and_true, if_pos rfl, ite_true, if_true]
    rw [hwait]
    exact ⟨_, rfl, rfl⟩

/-- Witness for C8's amended claim: the failing refresh propagates; a
successful query finding no eth0 IPv4 leaves the address unchanged. -/
theorem c8_read_ip_refresh_witness :
    (resourceVMRead 100 (some "10.0.0.5") readEnvW).1 = .error (.ipWait .timeoutErr)
    ∧ ∃ st, (resourceVMRead 100 (some "10.0.0.5")
        { readEnvW with agentResponses := [.ok [⟨"lo", [.v6 "::1"]⟩]] }).1 = .ok st ∧
        st.ipv4 = some "10.0.0.5" :=
  ⟨(c8_read_ip_refresh 100 (some "10.0.0.5") readEnvW _ rfl rfl rfl (by decide)).1
      .timeoutErr (by rfl),
    (c8_read_ip_refresh 100 (some "10.0.0.5")
        { readEnvW with agentResponses := [.ok [⟨"lo", [.v6 "::1"]⟩]] } _
        rfl rfl rfl (by decide)).2
      [⟨"lo", [.v6 "::1"]⟩] [] rfl (by decide)⟩

/-- Counterexample to C9 as stated: with two IPv4 addresses on eth0 the
waiter records the last one, not the first. -/
theorem c9_counterexample :
    waitVMBootUpGetIP 300 2
        [Except.ok [⟨"eth0", [.v4 "10.0.0.1", .v4 "10.0.0.2"]⟩]] none 0 =
      .ok (some "10.0.0.2")
    ∧ firstEth0V4 [⟨"eth0", [.v4 "10.0.0.1", .v4 "10.0.0.2"]⟩] = some "10.0.0.1"
    ∧ (some "10.0.0.2" : Option String) ≠ some "10.0.0.1" := by
  refine ⟨by rfl, by rfl, by decide⟩

/-- C9 amended: on a successful agent query the waiter records the last
IPv4 address of the interfaces named eth0 (each later IPv4 overwrites
the earlier; other interfaces and non-IPv4 addresses are ignored, and
the previous value survives a miss), and while the query fails with the
"guest agent is not running" condition it retries at the poll interval
instead of failing. -/
theorem c9_agent_ip_recording (timeout poll : Nat) (errs : List String)
    (ifaces : List Iface) (prev : Option String)
    (herrs : ∀ m ∈ errs, strContains m "guest agent is not running" = true)
    (htime : errs.length * poll < timeout) :
    scanIfaces ifaces prev = lastEth0V4 ifaces prev
    ∧ waitVMBootUpGetIP timeout poll (errs.map Except.error ++ [Except.ok ifaces])
        prev 0 = .ok (lastEth0V4 ifaces prev) :=
  ⟨scanIfaces_eq ifaces prev,
    waitIP_retries timeout poll errs ifaces prev 0 herrs (by simpa using htime)⟩

/-- Witness for C9's amended claim: one not-running retry, then an
interface list with a non-eth0 interface and a v6 address on eth0. -/
theorem c9_agent_ip_recording_witness :
    scanIfaces [⟨"lo", [.v4 "127.0.0.1"]⟩,
        ⟨"eth0", [.v6 "::1", .v4 "10.0.0.1", .v4 "10.0.0.2"]⟩] none =
      lastEth0V4 [⟨"lo", [.v4 "127.0.0.1"]⟩,
        ⟨"eth0", [.v6 "::1", .v4 "10.0.0.1", .v4 "10.0.0.2"]⟩] none
    ∧ waitVMBootUpGetIP 300 2
        (["QEMU guest agent is not running"].map Except.error ++
          [Except.ok [⟨"lo", [.v4 "127.0.0.1"]⟩,
            ⟨"eth0", [.v6 "::1", .v4 "10.0.0.1", .v4 "10.0.0.2"]⟩]]) none 0 =
      .ok (lastEth0V4 [⟨"lo", [.v4 "127.0.0.1"]⟩,
        ⟨"eth0", [.v6 "::1", .v4 "10.0.0.1", .v4 "10.0.0.2"]⟩] none) :=
  c9_agent_ip_recording 300 2 ["QEMU guest agent is not running"]
    [⟨"lo", [.v4 "127.0.0.1"]⟩, ⟨"eth0", [.v6 "::1", .v4 "10.0.0.1", .v4 "10.0.0.2"]⟩]
    none (by decide) (by decide)

theorem create_targetNode_irrelevant (cfg : VMCfg) (env : CreateEnv) (n1 n2 : String) :
    resourceVMCreate { cfg with targetNode := n1 } env =
      resourceVMCreate { cfg with targetNode := n2 } env := by
  cases cfg
  simp only [resourceVMCreate, createAfterClone, createUserData, createApply, createStart,
    createBaseEntries]

theorem create_clone_target (cfg : VMCfg) (env : CreateEnv) (s n : Nat) (nm tgt : String)
    (h : Call.cloneVm s n nm tgt ∈ (resourceVMCreate cfg env).2) :
    ∃ tpl, env.tplRefs = .ok [tpl] ∧ s = tpl.vmid ∧ tgt = tpl.node := by
  unfold resourceVMCreate at h
  repeat' split at h
  all_goals try simp_all
  all_goals (
    rcases h with h | h
    · exact ⟨h.1, h.2.2.2⟩
    · rename_i heqA
      exact absurd h (createAfterClone_pair_no_clone heqA))

theorem replace_clone_target (env : ReplaceEnv) (vmName : String) (vmid tplid : Nat)
    (tplNode : String) (s n : Nat) (nm tgt : String)
    (h : Call.cloneVm s n nm tgt ∈ (replaceTemplate env vmName vmid tplid tplNode).2) :
    s = tplid ∧ tgt = tplNode := by
  unfold replaceTemplate at h
  repeat' split at h
  all_goals try simp_all
  all_goals (
    rename_i heqA
    rcases h with h | h
    · exact ⟨h.1, h.2.2.2⟩
    · exact absurd h (replaceAfterClone_pair_no_clone heqA))

/-- C10: every clone request — the create's and the template swap's
auxiliary one — carries the resolved template's node as its target-node
parameter, and the resource's `target_node` attribute never influences
the create at all (its result and trace are invariant under changing
it). -/
theorem c10_clone_target_node (cfg : VMCfg) (env : CreateEnv) (renv : ReplaceEnv) :
    (∀ n1 n2, resourceVMCreate { cfg with targetNode := n1 } env =
        resourceVMCreate { cfg with targetNode := n2 } env)
    ∧ (∀ s n nm tgt, Call.cloneVm s n nm tgt ∈ (resourceVMCreate cfg env).2 →
        ∃ tpl, env.tplRefs = .ok [tpl] ∧ s = tpl.vmid ∧ tgt = tpl.node)
    ∧ (∀ vmName vmid tplid tplNode s n nm tgt,
        Call.cloneVm s n nm tgt ∈ (replaceTemplate renv vmName vmid tplid tplNode).2 →
        s = tplid ∧ tgt = tplNode) :=
  ⟨fun n1 n2 => create_targetNode_irrelevant cfg env n1 n2,
    fun s n nm tgt h => create_clone_target cfg env s n nm tgt h,
    fun vmName vmid tplid tplNode s n nm tgt h =>
      replace_clone_target renv vmName vmid tplid tplNode s n nm tgt h⟩

/-- Witness for C10: a concrete create and swap, the clone landing on
the template's node. -/
theorem c10_clone_target_node_witness :
    (resourceVMCreate { cfgW with targetNode := "X" } cenvW =
      resourceVMCreate { cfgW with targetNode := "Y" } cenvW)
    ∧ (∃ tpl, cenvW.tplRefs = .ok [tpl] ∧ 7 = tpl.vmid ∧ "nodeT" = tpl.node)
    ∧ (7 = 7 ∧ "pve" = "pve") :=
  ⟨(c10_clone_target_node cfgW cenvW renvW).1 "X" "Y",
    (c10_clone_target_node cfgW cenvW renvW).2.1 7 101 "vm1" "nodeT" (by decide),
    (c10_clone_target_node cfgW cenvW renvW).2.2 "vm1" 100 7 "pve" 7 101
      "vm1-upgrade" "pve" (by decide)⟩


end PVE
